import Mathlib

set_option maxRecDepth 8192

/-!
# Verification of the radixdlt-javascript core

Shallow embedding of the Radix wallet core:

* the APDU builder and HD-path serializer (source file `src/unnamed/part_000`,
  the ledger APDU codec module);
* the Tokens substate parser and amount serializer (source file
  `src/unnamed/part_001`);
* the transaction pipeline of `src/packages/application/src/radix.ts`
  (`__makeTransactionFromIntent` and its helper observables).

Buffers are modelled as `List Nat` with every entry below 256; machine
arithmetic is explicit (`% 256` and friends).  Fallible TypeScript code
(functions that `throw`) is modelled with `Except String`.  External
collaborators that are part of the repository but outside the provided
source scope are modelled from the specification and marked as such in
their doc comments.
-/

namespace Radix

/-! ## Byte-level helpers (Node `Buffer` writers, big-endian) -/

/-- Source `Buffer.writeUInt32BE`: the four big-endian bytes of a 32-bit value.
Node rejects out-of-range values at runtime; all values written in this
development are in range, so we model the in-range behaviour (high bits of
an oversized value would be truncated here). -/
def u32be (v : Nat) : List Nat :=
  [v / 16777216 % 256, v / 65536 % 256, v / 256 % 256, v % 256]

/-- Source `Buffer.writeUInt16BE`: the two big-endian bytes of a 16-bit value. -/
def u16be (v : Nat) : List Nat :=
  [v / 256 % 256, v % 256]

/-- Interpret a byte list as a big-endian natural number. -/
def ofBytesBE (bs : List Nat) : Nat :=
  bs.foldl (fun acc b => acc * 256 + b) 0

/-- The `w`-byte big-endian encoding of a natural number (low `8*w` bits). -/
def bytesBE : Nat → Nat → List Nat
  | 0, _ => []
  | w + 1, v => bytesBE w (v / 256) ++ [v % 256]

/-! ## JavaScript strings

A JavaScript string is a sequence of UTF-16 code units; `.length` counts
code units while `Buffer.from` with the utf8 encoding re-encodes to UTF-8 bytes.  We
model a string as its list of code units.  The UTF-8 encoder below is the
standard one for code points up to 0xFFFF; strings containing surrogate
pairs are outside the scope of this development (none of the theorems
instantiate them). -/

/-- A JavaScript string as its UTF-16 code units. -/
abbrev JSString := List Nat

/-- UTF-8 bytes of one (non-surrogate) UTF-16 code unit. -/
def utf8BytesOfCodeUnit (u : Nat) : List Nat :=
  if u < 128 then [u]
  else if u < 2048 then [192 + u / 64, 128 + u % 64]
  else [224 + u / 4096, 128 + u / 64 % 64, 128 + u % 64]

/-- Model of `Buffer.from` with the utf8 encoding, for a string without surrogate pairs. -/
def utf8Bytes (s : JSString) : List Nat :=
  (s.map utf8BytesOfCodeUnit).flatten

/-! ## HD paths and the APDU builder (`src/unnamed/part_000`) -/

/-- Source `radixCLA` from the ledger `_types` module: the fixed APDU class byte. -/
def radixCLA : Nat := 0xAA

/-- Source `LedgerResponseCodes.SW_OK`. -/
def SW_OK : Nat := 0x9000

/-- The ledger instruction tags.  The concrete `ins` byte values live in the
external `_types` module and are opaque here; no claim depends on them. -/
inductive LedgerInstruction
  | GET_VERSION
  | GET_APP_NAME
  | DO_SIGN_HASH
  | DO_KEY_EXCHANGE
  | DO_SIGN_TX
  | GET_PUBLIC_KEY
  deriving DecidableEq, Repr

/-- Modelled from the spec: a BIP32 path component of the external
`@radixdlt/crypto` package carries a 32-bit index whose high bit denotes
hardening; `value` is the index without the hardening bit. -/
structure BIP32PathComponent where
  value : Nat
  isHardened : Bool
  deriving DecidableEq, Repr

/-- Modelled from the spec: the `index` of a component is its value with the
hardening bit `0x80000000` set when the component is hardened. -/
def BIP32PathComponent.index (c : BIP32PathComponent) : Nat :=
  if c.isHardened then 2147483648 + c.value else c.value

/-- Modelled from the spec: `HDPathRadixT` of `@radixdlt/crypto` is a
fixed-depth path `purpose / coinType / account / change / addressIndex`. -/
structure HDPathRadix where
  purpose : BIP32PathComponent
  coinType : BIP32PathComponent
  account : BIP32PathComponent
  change : BIP32PathComponent
  addressIndex : BIP32PathComponent
  deriving DecidableEq, Repr

/-- The ordered component list of a Radix HD path. -/
def HDPathRadix.pathComponents (p : HDPathRadix) : List BIP32PathComponent :=
  [p.purpose, p.coinType, p.account, p.change, p.addressIndex]

/-- Source `RADIX_COIN_TYPE` of `@radixdlt/crypto`. -/
def RADIX_COIN_TYPE : Nat := 536

/-- Source `hdPathComponentsToBuffer`: rejects a path whose coin type is not the
hardened Radix coin type, else writes each component index as a big-endian
unsigned 32-bit word. -/
def hdPathComponentsToBuffer (hdPath : HDPathRadix) : Except String (List Nat) :=
  if hdPath.coinType.value ≠ RADIX_COIN_TYPE ∨ ¬ hdPath.coinType.isHardened then
    Except.error "Expected coinType to be 536 hardened"
  else
    Except.ok ((hdPath.pathComponents.map (fun c => u32be c.index)).flatten)

/-- Source `hdPathToBuffer`: one byte holding the component count followed by the
component words. -/
def hdPathToBuffer (hdPath : HDPathRadix) : Except String (List Nat) :=
  match hdPathComponentsToBuffer hdPath with
  | Except.error e => Except.error e
  | Except.ok bipPathsData =>
    Except.ok ([hdPath.pathComponents.length % 256] ++ bipPathsData)

/-- A fully assembled APDU frame (`RadixAPDUT`). -/
structure RadixAPDUT where
  cla : Nat
  ins : LedgerInstruction
  p1 : Nat
  p2 : Nat
  data : Option (List Nat)
  requiredResponseStatusCodeFromDevice : List Nat
  deriving DecidableEq, Repr

/-- The data bytes of a frame (`undefined` data is an empty payload). -/
def RadixAPDUT.dataBytes (a : RadixAPDUT) : List Nat := a.data.getD []

/-- Builder input (the source calls this shape an APDU without `cla`;
optional fields default as in `makeAPDU`). -/
structure MakeAPDUInput where
  ins : LedgerInstruction
  p1 : Option Nat := none
  p2 : Option Nat := none
  data : Option (List Nat) := none
  requiredResponseStatusCodeFromDevice : Option (List Nat) := none

/-- Source `makeAPDU`: fills in the fixed class byte and the defaults
(`p1 = p2 = 0`, expected status `[SW_OK]`). -/
def makeAPDU (input : MakeAPDUInput) : RadixAPDUT :=
  { cla := radixCLA
    ins := input.ins
    p1 := input.p1.getD 0
    p2 := input.p2.getD 0
    data := input.data
    requiredResponseStatusCodeFromDevice :=
      input.requiredResponseStatusCodeFromDevice.getD [SW_OK] }

/-- Source `getVersion`. -/
def getVersion : RadixAPDUT :=
  makeAPDU { ins := LedgerInstruction.GET_VERSION }

/-- Source `getAppName`. -/
def getAppName : RadixAPDUT :=
  makeAPDU { ins := LedgerInstruction.GET_APP_NAME }

/-- Input of `getPublicKey` (and, with a hash, of `doSignHash`). -/
structure APDUGetPublicKeyInput where
  path : HDPathRadix
  displayAddress : Bool

/-- Source `parameterValueForDisplayAddressOnLedger`. -/
def parameterValueForDisplayAddressOnLedger (input : APDUGetPublicKeyInput) : Nat :=
  if input.displayAddress then 0x01 else 0x00

/-- Source `getPublicKey`: `p1` selects on-device display, data is the encoded path. -/
def getPublicKey (input : APDUGetPublicKeyInput) : Except String RadixAPDUT :=
  let p1 := parameterValueForDisplayAddressOnLedger input
  match hdPathToBuffer input.path with
  | Except.error e => Except.error e
  | Except.ok data =>
    Except.ok (makeAPDU
      { ins := LedgerInstruction.GET_PUBLIC_KEY
        p1 := some p1
        data := some data })

/-- Modelled from the spec: `PublicKeyT.asData({compressed: false})` of
`@radixdlt/crypto` yields the 65-byte SEC1-uncompressed key. -/
def PublicKeyT := { bs : List Nat // bs.length = 65 }

/-- Input of `doKeyExchange`. -/
structure APDUDoKeyExchangeInput where
  path : HDPathRadix
  publicKeyOfOtherParty : PublicKeyT
  displayBIPAndPubKeyOtherParty : Bool

/-- Source `parameterValueForDisplayECDHInputOnLedger`. -/
def parameterValueForDisplayECDHInputOnLedger (input : APDUDoKeyExchangeInput) : Nat :=
  if input.displayBIPAndPubKeyOtherParty then 0x01 else 0x00

/-- Source `doKeyExchange`: data is the encoded path, a one-byte key length, and
the uncompressed public key of the other party. -/
def doKeyExchange (input : APDUDoKeyExchangeInput) : Except String RadixAPDUT :=
  let p1 := parameterValueForDisplayECDHInputOnLedger input
  let publicKeyUncompressedData := input.publicKeyOfOtherParty.1
  let publicKeyData := [publicKeyUncompressedData.length % 256] ++ publicKeyUncompressedData
  match hdPathToBuffer input.path with
  | Except.error e => Except.error e
  | Except.ok pathData =>
    Except.ok (makeAPDU
      { ins := LedgerInstruction.DO_KEY_EXCHANGE
        p1 := some p1
        data := some (pathData ++ publicKeyData) })

/-- Input of `doSignHash`. -/
structure APDUDoSignHashInput where
  path : HDPathRadix
  displayAddress : Bool
  hashToSign : List Nat

/-- Source `doSignHash`: data is the encoded path, a one-byte hash length, and the
hash.  `Buffer.writeUInt8` rejects a length above 255 at runtime. -/
def doSignHash (input : APDUDoSignHashInput) : Except String RadixAPDUT :=
  let p1 := parameterValueForDisplayAddressOnLedger
    { path := input.path, displayAddress := input.displayAddress }
  match hdPathToBuffer input.path with
  | Except.error e => Except.error e
  | Except.ok pathData =>
    let hashedMessageByteCount := input.hashToSign.length
    if hashedMessageByteCount > 255 then
      Except.error "RangeError: writeUInt8 value out of range"
    else
      let hashData := [hashedMessageByteCount] ++ input.hashToSign
      Except.ok (makeAPDU
        { ins := LedgerInstruction.DO_SIGN_HASH
          p1 := some p1
          data := some (pathData ++ hashData) })

/-- Source `SignTxAPDUType.FIRST_METADATA_APDU`: ASCII code of the letter M. -/
def FIRST_METADATA_APDU : Nat := 77

/-- Source `SignTxAPDUType.SINGLE_RADIX_ENGINE_INSTRUCTION_APDU`: ASCII code of
the letter I. -/
def SINGLE_RADIX_ENGINE_INSTRUCTION_APDU : Nat := 73

/-- Input of `signTxInitialSetupPackage`. -/
structure APDUDoSignTxInitialPackage where
  path : HDPathRadix
  txByteCount : Nat
  nonNativeTokenRriHRP : Option JSString := none
  numberOfInstructions : Nat

/-- Source `signTxInitialSetupPackage`: the SIGN_TX metadata frame.  Its payload is
the encoded path, the big-endian 32-bit transaction byte count, the
big-endian 16-bit instruction count, one byte holding the HRP length
(the JavaScript string length, i.e. UTF-16 code units, zero when absent),
and the UTF-8 bytes of the HRP. -/
def signTxInitialSetupPackage (input : APDUDoSignTxInitialPackage) :
    Except String RadixAPDUT :=
  let p1 := FIRST_METADATA_APDU
  match hdPathToBuffer input.path with
  | Except.error e => Except.error e
  | Except.ok pathData =>
    let sizeOfTXAsData := u32be input.txByteCount
    let instructionCountAsData := u16be input.numberOfInstructions
    let hrpLen :=
      match input.nonNativeTokenRriHRP with
      | none => 0
      | some s => s.length
    if hrpLen > 255 then
      Except.error "Non native token HRP must not longer than 255."
    else
      let nonNativeTokenHrpData :=
        match input.nonNativeTokenRriHRP with
        | none => []
        | some s => utf8Bytes s
      let hrpData := [hrpLen] ++ nonNativeTokenHrpData
      Except.ok (makeAPDU
        { ins := LedgerInstruction.DO_SIGN_TX
          p1 := some p1
          data := some (pathData ++ sizeOfTXAsData ++ instructionCountAsData ++ hrpData) })

/-- Input of `signTxStream`. -/
structure APDUDoSignTxSingleInstructionPackage where
  instructionBytes : List Nat
  isLastInstruction : Bool

/-- Source `signTxStream`: one SIGN_TX instruction frame; `p2 = 1` marks the last
instruction.  No length check is performed on the payload. -/
def signTxStream (input : APDUDoSignTxSingleInstructionPackage) : RadixAPDUT :=
  makeAPDU
    { ins := LedgerInstruction.DO_SIGN_TX
      p1 := some SINGLE_RADIX_ENGINE_INSTRUCTION_APDU
      p2 := some (if input.isLastInstruction then 0x01 else 0x00)
      data := some input.instructionBytes }

/-- Modelled from the spec: the SIGN_TX chunker (section 4.4 of the spec;
its driver lives outside the provided source scope) emits the metadata
frame first and then one instruction frame per instruction in producer
order, marking only the last one. -/
def signTxFullStream (setup : APDUDoSignTxInitialPackage)
    (instructions : List (List Nat)) : Except String (List RadixAPDUT) :=
  match signTxInitialSetupPackage setup with
  | Except.error e => Except.error e
  | Except.ok meta =>
    let n := instructions.length
    Except.ok (meta :: instructions.enum.map (fun pair =>
      signTxStream
        { instructionBytes := pair.2
          isLastInstruction := pair.1 + 1 == n }))

/-! ## Tokens substate parsing (`src/unnamed/part_001`)

`BufferReaderT` of `@radixdlt/util` is a mutable cursor over a byte buffer;
we model it by explicit state passing.  `UInt256` of `@radixdlt/uint256`
is modelled as a natural number. -/

/-- A reading cursor over a byte buffer. -/
structure BufferReader where
  bytes : List Nat
  offset : Nat
  deriving DecidableEq, Repr

/-- Source `bufferReader.readNextBuffer(n)`: the next `n` bytes, or an error when
fewer remain. -/
def BufferReader.readNextBuffer (r : BufferReader) (n : Nat) :
    Except String (List Nat × BufferReader) :=
  if r.offset + n ≤ r.bytes.length then
    Except.ok ((r.bytes.drop r.offset).take n, { r with offset := r.offset + n })
  else
    Except.error "Out of buffer bounds"

/-- Source `uint256ByteCount`. -/
def uint256ByteCount : Nat := 32

/-- Source `uint256FromReadBuffer`: reads 32 bytes and parses them as a big-endian
(hex string) `UInt256`. -/
def uint256FromReadBuffer (bufferReader : BufferReader) :
    Except String (Nat × BufferReader) :=
  match bufferReader.readNextBuffer uint256ByteCount with
  | Except.error e => Except.error e
  | Except.ok (b, r) => Except.ok (ofBytesBE b, r)

/-- Modelled from the spec: `UInt256.toByteArray` of the repository package
`@radixdlt/uint256` (outside the provided source scope) returns the fixed
32-byte little-endian encoding of the value; the caller in
`src/unnamed/part_001` reverses it to big-endian ("fix endianess"). -/
def toByteArray (amount : Nat) : List Nat :=
  (bytesBE 32 amount).reverse

/-- Source `amountToBuffer`: `Buffer.from(amount.toByteArray()).reverse()`. -/
def amountToBuffer (amount : Nat) : List Nat :=
  (toByteArray amount).reverse

/-- Modelled from the spec: a Radix engine address as parsed by the external
`./reAddress` module: a one-byte address type followed by a payload whose
length the type determines. -/
structure REAddressT where
  typeByte : Nat
  payload : List Nat
  deriving DecidableEq, Repr

/-- Modelled from the spec: payload byte count per address type
(system and native-token addresses have no payload, a hashed-key address
carries 26 bytes, a public-key address 33). -/
def reAddressPayloadLength : Nat → Option Nat
  | 0 => some 0
  | 1 => some 0
  | 3 => some 26
  | 4 => some 33
  | _ => none

/-- Modelled from the spec: `REAddress.toBuffer` re-serializes the type
byte followed by the payload. -/
def REAddressT.toBuffer (a : REAddressT) : List Nat :=
  a.typeByte :: a.payload

/-- Modelled from the spec: `REAddress.fromBufferReader` reads the type
byte, then the payload the type calls for. -/
def REAddress.fromBufferReader (r : BufferReader) :
    Except String (REAddressT × BufferReader) :=
  match r.readNextBuffer 1 with
  | Except.error e => Except.error e
  | Except.ok (tb, r1) =>
    match tb with
    | [t] =>
      match reAddressPayloadLength t with
      | none => Except.error "Unrecognized address type"
      | some n =>
        match r1.readNextBuffer n with
        | Except.error e => Except.error e
        | Except.ok (payload, r2) =>
          Except.ok ({ typeByte := t, payload := payload }, r2)
    | _ => Except.error "Unrecognized address type"

/-- Modelled from the spec: `SubStateType.TOKENS` of the external `_types`
module; the claims depend only on it being the fixed substate tag byte. -/
def SubStateType_TOKENS : Nat := 5

/-- A parsed Tokens substate (`TokensT`). -/
structure TokensT where
  rri : REAddressT
  owner : REAddressT
  amount : Nat
  deriving DecidableEq, Repr

/-- Source `toBuffer` of a parsed Tokens substate: the TOKENS tag byte, both
re-serialized addresses, and the re-serialized amount. -/
def TokensT.toBuffer (t : TokensT) : List Nat :=
  [SubStateType_TOKENS] ++ t.rri.toBuffer ++ t.owner.toBuffer ++ amountToBuffer t.amount

/-- Source `Tokens.fromBufferReader`: reads the resource address, the owner
address and the 32-byte amount in sequence. -/
def Tokens.fromBufferReader (bufferReader : BufferReader) :
    Except String (TokensT × BufferReader) :=
  match REAddress.fromBufferReader bufferReader with
  | Except.error e => Except.error e
  | Except.ok (rri, r1) =>
    match REAddress.fromBufferReader r1 with
    | Except.error e => Except.error e
    | Except.ok (owner, r2) =>
      match uint256FromReadBuffer r2 with
      | Except.error e => Except.error e
      | Except.ok (amount, r3) =>
        Except.ok ({ rri := rri, owner := owner, amount := amount }, r3)

/-! ## The transaction pipeline (`src/packages/application/src/radix.ts`)

`__makeTransactionFromIntent` wires an RxJS observable graph.  We embed it
as a deterministic trace semantics: the environment fixes the outcome of
every external collaborator (node API calls, the signing capability of the
active account, the polled status sequence, the user confirmation scheme),
and the semantics produces the list of tracking events published on the
`events` stream, the outcome of the `completion` output, and the ordered
list of external calls the pipeline performed.

Scheduling: the graph is single-threaded; every stage completes before the
next input is processed.  For two or more manual confirmations the model
fixes one concrete legal scheduling: the `confirm()` calls happen back to
back before the first device signature resolves, and signature results
other than the first resolve only after the first run has torn down the
pipeline subscriptions (`txSubs.unsubscribe()`), so only the first run
contributes post-confirmation events.  A synchronous signing rejection
(the multi-RRI check) errors the `signedTransaction$` chain during the
first emission, so later confirmations are never processed in that case.
Theorems about two or more confirmations are stated only at concrete
inputs where the first run terminates. -/

/-- Source `TransactionTrackingEventType`. -/
inductive TransactionTrackingEventType
  | INITIATED
  | BUILT_FROM_INTENT
  | ASKED_FOR_CONFIRMATION
  | CONFIRMED
  | SIGNED
  | FINALIZED
  | SUBMITTED
  | UPDATE_OF_STATUS_OF_PENDING_TX
  | COMPLETED
  deriving DecidableEq, Repr

/-- Source `TransactionStatus` as reported by the node. -/
inductive TransactionStatus
  | PENDING
  | CONFIRMED
  | FAILED
  deriving DecidableEq, Repr

/-- One action of a transaction intent: a token transfer carries the name
of its resource identifier; every other action kind is opaque to the
signing path. -/
inductive IntentAction
  | transferTokens (rriName : String)
  | nonTransfer
  deriving DecidableEq, Repr

/-- Source `TransactionIntent` (the fields beyond the action list are opaque). -/
structure TransactionIntent where
  actions : List IntentAction
  deriving DecidableEq, Repr

/-- Source `BuiltTransaction`: the node-serialized blob. -/
structure BuiltTransaction where
  transaction : List Nat
  deriving DecidableEq, Repr

/-- Source `SignedTransaction`. -/
structure SignedTransaction where
  transaction : List Nat
  signature : Nat
  publicKeyOfSigner : Nat
  deriving DecidableEq, Repr

/-- Source `FinalizedTransaction` (only the node-assigned identifier matters). -/
structure FinalizedTransaction where
  txID : Nat
  deriving DecidableEq, Repr

/-- Source `PendingTransaction`. -/
structure PendingTransaction where
  txID : Nat
  deriving DecidableEq, Repr

/-- Source `StatusOfTransaction`. -/
structure StatusOfTransaction where
  txID : Nat
  status : TransactionStatus
  deriving DecidableEq, Repr

/-- The `transactionState` payload carried by a tracking event. -/
inductive TransactionState
  | ofIntent (intent : TransactionIntent)
  | ofBuilt (tx : BuiltTransaction)
  | ofSigned (tx : SignedTransaction)
  | ofFinalized (tx : FinalizedTransaction)
  | ofPending (tx : PendingTransaction)
  | ofStatus (s : StatusOfTransaction)
  deriving DecidableEq, Repr

/-- The domain-tagged errors the pipeline reports (`errors.ts` wrappers for
the node operations it uses, plus the plain `Error` values thrown inside
the pipeline itself). -/
inductive RadixError
  | buildTxFromIntent (msg : String)
  | finalizeTx (msg : String)
  | submitSignedTx (msg : String)
  | plain (msg : String)
  deriving DecidableEq, Repr

/-- A tracking event: a state update `{transactionState, eventUpdateType}`
or an error event `{error, eventUpdateType}` (the claims call the latter
field `in_phase`). -/
inductive TrackingEvent
  | stateUpdate (transactionState : TransactionState)
      (eventUpdateType : TransactionTrackingEventType)
  | stateError (error : RadixError)
      (eventUpdateType : TransactionTrackingEventType)
  deriving DecidableEq, Repr

/-- The observable outcome of the single-value `completion` output. -/
inductive Completion
  | pending
  | success (txID : Nat)
  | failure (error : RadixError)
  deriving DecidableEq, Repr

/-- External calls the pipeline can perform, in order of occurrence. -/
inductive ExtCall
  | buildTransaction
  | accountSign
  | finalizeTransaction
  | submitSignedTransaction
  | transactionStatus
  deriving DecidableEq, Repr

/-- The `userConfirmation` option: the sentinel `skip`, or a manual
rendezvous on which the caller invokes `confirm()` some number of times. -/
inductive UserConfirmation
  | skip
  | manual (confirmCalls : Nat)
  deriving DecidableEq, Repr

/-- The environment of one pipeline run: the intent and the outcome every
external collaborator would deliver.  Node errors are given as the
underlying message; `fwdAPICall` wraps them into the matching domain
error without loss. -/
structure PipelineEnv where
  intent : TransactionIntent
  accountPublicKey : Nat
  buildResult : Except String BuiltTransaction
  signResult : Except String Nat
  finalizeResult : Except String FinalizedTransaction
  submitResult : Except String PendingTransaction
  statuses : List StatusOfTransaction
  userConfirmation : UserConfirmation

/-- The observable outcome of a pipeline run. -/
structure TrackingResult where
  events : List TrackingEvent
  completion : Completion
  calls : List ExtCall
  deriving DecidableEq, Repr

/-- The error message of the multi-RRI rejection (verbatim from the
source, including its typo). -/
def multipleNonXrdErrMsg : String :=
  "Error cannot sign transction with multiple non-XRD RRIs. Unsupported by Ledger app."

/-- The non-native resource names of the transfer actions: filter the
transfer actions, keep the names different from xrd. -/
def nonXRDHRPsOfRRIsInTx (intent : TransactionIntent) : List String :=
  intent.actions.filterMap (fun a =>
    match a with
    | IntentAction.transferTokens name => if name ≠ "xrd" then some name else none
    | IntentAction.nonTransfer => none)

/-- Source `[...new Set(xs)]`: deduplicate keeping first occurrences. -/
def uniqueFirst (l : List String) : List String :=
  l.foldl (fun acc x => if x ∈ acc then acc else acc ++ [x]) []

/-- Outcome of `signUnsignedTx` together with whether the signing
capability of the account was invoked. -/
structure SignOutcome where
  result : Except RadixError SignedTransaction
  signCalled : Bool
  deriving Repr

/-- Source `signUnsignedTx`: rejects an intent holding two or more distinct
non-native resource names before invoking `account.sign`; otherwise signs
the built blob with the active account. -/
def signUnsignedTx (env : PipelineEnv) (unsignedTx : BuiltTransaction) : SignOutcome :=
  let uniquenonXRDHRPsOfRRIsInTx := uniqueFirst (nonXRDHRPsOfRRIsInTx env.intent)
  if uniquenonXRDHRPsOfRRIsInTx.length > 1 then
    { result := Except.error (RadixError.plain multipleNonXrdErrMsg), signCalled := false }
  else
    match env.signResult with
    | Except.error m =>
      { result := Except.error (RadixError.plain m), signCalled := true }
    | Except.ok signature =>
      { result := Except.ok
          { transaction := unsignedTx.transaction
            signature := signature
            publicKeyOfSigner := env.accountPublicKey }
        signCalled := true }

/-- The message of the terminal error raised on a FAILED status. -/
def failedStatusErrMsg (txID : Nat) : String :=
  "API status of tx with id=" ++ toString txID ++ " returned FAILED"

/-- The status polling loop: each tick calls `transactionStatus`;
`distinctUntilChanged` suppresses a result whose `status` equals the
previously emitted one; each passing result is tracked as an
UPDATE_OF_STATUS_OF_PENDING_TX event; the first CONFIRMED one adds the
COMPLETED event, completes `completion` and tears the pipeline down; the
first FAILED one raises the terminal error instead. -/
def pollLoop : Option TransactionStatus → List StatusOfTransaction → TrackingResult
  | _, [] => { events := [], completion := Completion.pending, calls := [] }
  | last, s :: rest =>
    if last = some s.status then
      let r := pollLoop last rest
      { r with calls := ExtCall.transactionStatus :: r.calls }
    else
      let upd := TrackingEvent.stateUpdate (TransactionState.ofStatus s)
        TransactionTrackingEventType.UPDATE_OF_STATUS_OF_PENDING_TX
      match s.status with
      | TransactionStatus.CONFIRMED =>
        { events := [upd, TrackingEvent.stateUpdate (TransactionState.ofStatus s)
            TransactionTrackingEventType.COMPLETED]
          completion := Completion.success s.txID
          calls := [ExtCall.transactionStatus] }
      | TransactionStatus.FAILED =>
        { events := [upd, TrackingEvent.stateError
            (RadixError.plain (failedStatusErrMsg s.txID))
            TransactionTrackingEventType.UPDATE_OF_STATUS_OF_PENDING_TX]
          completion := Completion.failure (RadixError.plain (failedStatusErrMsg s.txID))
          calls := [ExtCall.transactionStatus] }
      | TransactionStatus.PENDING =>
        let r := pollLoop (some s.status) rest
        { events := upd :: r.events
          completion := r.completion
          calls := ExtCall.transactionStatus :: r.calls }

/-- The pipeline from the first confirmation emission on: sign (an error
is only observed by the error handler of the finalize stage, hence tagged
FINALIZED), finalize, submit, then poll.  The CONFIRMED event itself is
emitted by the caller. -/
def runFromConfirmed (env : PipelineEnv) (builtTx : BuiltTransaction) : TrackingResult :=
  let so := signUnsignedTx env builtTx
  let signCalls := if so.signCalled then [ExtCall.accountSign] else []
  match so.result with
  | Except.error e =>
    { events := [TrackingEvent.stateError e TransactionTrackingEventType.FINALIZED]
      completion := Completion.failure e
      calls := signCalls }
  | Except.ok signedTx =>
    let evSigned := TrackingEvent.stateUpdate (TransactionState.ofSigned signedTx)
      TransactionTrackingEventType.SIGNED
    match env.finalizeResult with
    | Except.error m =>
      { events := [evSigned, TrackingEvent.stateError (RadixError.finalizeTx m)
          TransactionTrackingEventType.FINALIZED]
        completion := Completion.failure (RadixError.finalizeTx m)
        calls := signCalls ++ [ExtCall.finalizeTransaction] }
    | Except.ok finalizedTx =>
      let evFinalized := TrackingEvent.stateUpdate
        (TransactionState.ofFinalized finalizedTx) TransactionTrackingEventType.FINALIZED
      match env.submitResult with
      | Except.error m =>
        { events := [evSigned, evFinalized, TrackingEvent.stateError
            (RadixError.submitSignedTx m) TransactionTrackingEventType.SUBMITTED]
          completion := Completion.failure (RadixError.submitSignedTx m)
          calls := signCalls ++ [ExtCall.finalizeTransaction, ExtCall.submitSignedTransaction] }
      | Except.ok pendingTx =>
        let evSubmitted := TrackingEvent.stateUpdate
          (TransactionState.ofPending pendingTx) TransactionTrackingEventType.SUBMITTED
        let p := pollLoop none env.statuses
        { events := [evSigned, evFinalized, evSubmitted] ++ p.events
          completion := p.completion
          calls := signCalls ++ [ExtCall.finalizeTransaction, ExtCall.submitSignedTransaction]
            ++ p.calls }

/-- The number of emissions of the confirmation `combineLatest`: the skip
sentinel auto-confirms once; a manual rendezvous emits once per
`confirm()` call. -/
def confirmEmissionCount : UserConfirmation → Nat
  | UserConfirmation.skip => 1
  | UserConfirmation.manual k => k

/-- Source `__makeTransactionFromIntent`: the full pipeline trace.  The INITIATED
event is tracked when the intent arrives; a build failure is tracked as
the terminal BuildTxFromIntent error in phase BUILT_FROM_INTENT; on
success the BUILT_FROM_INTENT and ASKED_FOR_CONFIRMATION events are
emitted, one CONFIRMED event per confirmation emission follows, and the
first confirmation drives the signing pipeline (see the scheduling note of
this section for several confirmations). -/
def makeTransactionFromIntent (env : PipelineEnv) : TrackingResult :=
  let evInitiated := TrackingEvent.stateUpdate (TransactionState.ofIntent env.intent)
    TransactionTrackingEventType.INITIATED
  match env.buildResult with
  | Except.error m =>
    { events := [evInitiated, TrackingEvent.stateError (RadixError.buildTxFromIntent m)
        TransactionTrackingEventType.BUILT_FROM_INTENT]
      completion := Completion.failure (RadixError.buildTxFromIntent m)
      calls := [ExtCall.buildTransaction] }
  | Except.ok builtTx =>
    let evBuilt := TrackingEvent.stateUpdate (TransactionState.ofBuilt builtTx)
      TransactionTrackingEventType.BUILT_FROM_INTENT
    let evAsked := TrackingEvent.stateUpdate (TransactionState.ofBuilt builtTx)
      TransactionTrackingEventType.ASKED_FOR_CONFIRMATION
    let evConfirmed := TrackingEvent.stateUpdate (TransactionState.ofBuilt builtTx)
      TransactionTrackingEventType.CONFIRMED
    let k := confirmEmissionCount env.userConfirmation
    if k = 0 then
      { events := [evInitiated, evBuilt, evAsked]
        completion := Completion.pending
        calls := [ExtCall.buildTransaction] }
    else
      let so := signUnsignedTx env builtTx
      -- A synchronous multi-RRI rejection errors the chain during the
      -- first emission, so only one CONFIRMED event is observed then.
      let confirmedEmissions := if so.signCalled then k else 1
      let extraSignCalls :=
        if so.signCalled then List.replicate (k - 1) ExtCall.accountSign else []
      let r := runFromConfirmed env builtTx
      { events := [evInitiated, evBuilt, evAsked]
          ++ List.replicate confirmedEmissions evConfirmed ++ r.events
        completion := r.completion
        calls := [ExtCall.buildTransaction] ++ extraSignCalls ++ r.calls }

/-! ## Derived notions used by the statements -/

/-- The default Radix HD path `m / 44h / 536h / 0h / 0 / 0` (hardening on
the first three components). -/
def radixDefaultPath : HDPathRadix :=
  { purpose := { value := 44, isHardened := true }
    coinType := { value := 536, isHardened := true }
    account := { value := 0, isHardened := true }
    change := { value := 0, isHardened := false }
    addressIndex := { value := 0, isHardened := false } }

/-- The phase tags of the state-update events of a trace, in order. -/
def phasesOf (tr : List TrackingEvent) : List TransactionTrackingEventType :=
  tr.filterMap (fun e =>
    match e with
    | TrackingEvent.stateUpdate _ t => some t
    | TrackingEvent.stateError _ _ => none)

/-- Returns `true` when the trace holds no error event. -/
def errorFree (tr : List TrackingEvent) : Bool :=
  tr.all (fun e =>
    match e with
    | TrackingEvent.stateUpdate _ _ => true
    | TrackingEvent.stateError _ _ => false)

/-- The error events of a trace, as pairs of error and phase tag. -/
def errorEventsOf (tr : List TrackingEvent) :
    List (RadixError × TransactionTrackingEventType) :=
  tr.filterMap (fun e =>
    match e with
    | TrackingEvent.stateUpdate _ _ => none
    | TrackingEvent.stateError err t => some (err, t))

/-- The non-repeating leading phases of the tracking state machine. -/
def basePhases : List TransactionTrackingEventType :=
  [TransactionTrackingEventType.INITIATED,
   TransactionTrackingEventType.BUILT_FROM_INTENT,
   TransactionTrackingEventType.ASKED_FOR_CONFIRMATION,
   TransactionTrackingEventType.CONFIRMED,
   TransactionTrackingEventType.SIGNED,
   TransactionTrackingEventType.FINALIZED,
   TransactionTrackingEventType.SUBMITTED]

/-- Whether a phase list is a contiguous prefix of the pattern
INITIATED, BUILT_FROM_INTENT, ASKED_FOR_CONFIRMATION, CONFIRMED, SIGNED,
FINALIZED, SUBMITTED, any number of UPDATE_OF_STATUS_OF_PENDING_TX,
optionally closed by COMPLETED. -/
def validPhaseList (ps : List TransactionTrackingEventType) : Bool :=
  (ps.length ≤ 7 && ps == basePhases.take ps.length) ||
  (7 ≤ ps.length && ps == basePhases ++ List.replicate (ps.length - 7)
    TransactionTrackingEventType.UPDATE_OF_STATUS_OF_PENDING_TX) ||
  (8 ≤ ps.length && ps == basePhases ++ List.replicate (ps.length - 8)
    TransactionTrackingEventType.UPDATE_OF_STATUS_OF_PENDING_TX
    ++ [TransactionTrackingEventType.COMPLETED])

/-- The tracking-order property claimed for the event stream: the state
updates follow the phase pattern and at most one error event occurs, as
the final event. -/
def contiguousPrefixTrace (tr : List TrackingEvent) : Bool :=
  if errorFree tr then
    validPhaseList (phasesOf tr)
  else
    match tr.getLast? with
    | some (TrackingEvent.stateError _ _) =>
      errorFree tr.dropLast && validPhaseList (phasesOf tr.dropLast)
    | _ => false

/-- Remove each status whose `status` field repeats the previous one
(the effect of `distinctUntilChanged` on the polled stream). -/
def collapseConsecutive :
    Option TransactionStatus → List StatusOfTransaction → List StatusOfTransaction
  | _, [] => []
  | last, s :: rest =>
    if last = some s.status then collapseConsecutive last rest
    else s :: collapseConsecutive (some s.status) rest

/-- The statuses carried by UPDATE_OF_STATUS_OF_PENDING_TX events. -/
def updatesOf (tr : List TrackingEvent) : List StatusOfTransaction :=
  tr.filterMap (fun e =>
    match e with
    | TrackingEvent.stateUpdate (TransactionState.ofStatus s)
        TransactionTrackingEventType.UPDATE_OF_STATUS_OF_PENDING_TX => some s
    | _ => none)

/-! ## Shared helper lemmas -/

/-- A successfully encoded 5-component path is 21 bytes long. -/
lemma hdPathToBuffer_length (p : HDPathRadix) (bs : List Nat)
    (h : hdPathToBuffer p = Except.ok bs) : bs.length = 21 := by
  unfold hdPathToBuffer hdPathComponentsToBuffer at h
  by_cases hc : p.coinType.value ≠ RADIX_COIN_TYPE ∨ ¬ p.coinType.isHardened
  · rw [if_pos hc] at h
    exact absurd h (by simp)
  · rw [if_neg hc] at h
    cases h
    simp [HDPathRadix.pathComponents, u32be]

/-! ## Claim C8: HD-path encoding -/

/-- C8 counterexample: on the default Radix path the encoder does not
return the bytes the claim states.  The claimed second word is 0x80000054
(hardened 84), but the hardened purpose component 44 encodes to
0x8000002C. -/
theorem C8_counterexample :
    hdPathToBuffer radixDefaultPath ≠
      Except.ok [5, 128, 0, 0, 84, 128, 0, 2, 24, 128, 0, 0, 0,
                 0, 0, 0, 0, 0, 0, 0, 0] := by
  intro h
  exact absurd (Except.ok.inj h) (by decide)

/-- C8 (amended): for the default Radix path (first three components
hardened) encode returns exactly the 21 bytes
05 8000002C 80000218 80000000 00000000 00000000; in general, on a path
whose coin type is the hardened Radix coin type, encode emits a 1-byte
component count followed by one big-endian u32 per component whose value
is the component index, i.e. the component value with the hardening bit
0x80000000 added exactly when the component is hardened, and the result
is 21 bytes. -/
theorem C8_hd_path_encoding :
    hdPathToBuffer radixDefaultPath =
      Except.ok [5, 128, 0, 0, 44, 128, 0, 2, 24, 128, 0, 0, 0,
                 0, 0, 0, 0, 0, 0, 0, 0] ∧
    (∀ p : HDPathRadix,
      p.coinType.value = RADIX_COIN_TYPE → p.coinType.isHardened = true →
      hdPathToBuffer p =
        Except.ok ([5] ++ (p.pathComponents.map (fun c => u32be c.index)).flatten) ∧
      ∀ bs, hdPathToBuffer p = Except.ok bs → bs.length = 21) ∧
    (∀ c : BIP32PathComponent,
      c.index = c.value + (if c.isHardened then 2147483648 else 0)) := by
  refine ⟨rfl, ?_, ?_⟩
  · intro p h1 h2
    refine ⟨?_, fun bs hbs => hdPathToBuffer_length p bs hbs⟩
    simp [hdPathToBuffer, hdPathComponentsToBuffer, h1, h2, HDPathRadix.pathComponents]
  · intro c
    unfold BIP32PathComponent.index
    cases hcase : c.isHardened <;> simp [Nat.add_comm]

/-- C8 witness: the amended claim applied to the default Radix path. -/
theorem C8_hd_path_encoding_witness :
    radixDefaultPath.coinType.value = RADIX_COIN_TYPE ∧
    radixDefaultPath.coinType.isHardened = true ∧
    hdPathToBuffer radixDefaultPath =
      Except.ok ([5] ++
        (radixDefaultPath.pathComponents.map (fun c => u32be c.index)).flatten) :=
  ⟨rfl, rfl, (C8_hd_path_encoding.2.1 radixDefaultPath rfl rfl).1⟩

/-! ## Claim C9: APDU frame invariants -/

/-- A 256-byte SIGN_TX instruction package. -/
def oversizedInstructionPackage : APDUDoSignTxSingleInstructionPackage :=
  { instructionBytes := List.replicate 256 0, isLastInstruction := false }

/-- C9 counterexample: the instruction-frame builder accepts a 256-byte
instruction payload and emits a frame whose data exceeds 255 bytes; no
length check guards it. -/
theorem C9_counterexample :
    ¬ ((signTxStream oversizedInstructionPackage).dataBytes.length ≤ 255) := by
  simp [signTxStream, oversizedInstructionPackage, makeAPDU, RadixAPDUT.dataBytes]

/-- C9 (amended): every frame produced by the builders has cla = 0xAA,
p1 and p2 in 0..255 and the default expected status list [SW_OK]; the
data payload is at most 255 bytes for getVersion, getAppName,
getPublicKey and doKeyExchange unconditionally, for doSignHash when the
hash is at most 233 bytes, and for the SIGN_TX metadata frame when the
UTF-8 HRP is at most 227 bytes; the instruction-frame builder itself
bounds its payload only when its caller does (the chunker must keep
instructions at 255 bytes or less). -/
theorem C9_frame_invariants :
    (getVersion.cla = 0xAA ∧ getVersion.p1 ≤ 255 ∧ getVersion.p2 ≤ 255 ∧
      getVersion.dataBytes.length ≤ 255 ∧
      getVersion.requiredResponseStatusCodeFromDevice = [SW_OK]) ∧
    (getAppName.cla = 0xAA ∧ getAppName.p1 ≤ 255 ∧ getAppName.p2 ≤ 255 ∧
      getAppName.dataBytes.length ≤ 255 ∧
      getAppName.requiredResponseStatusCodeFromDevice = [SW_OK]) ∧
    (∀ input fr, getPublicKey input = Except.ok fr →
      fr.cla = 0xAA ∧ fr.p1 ≤ 255 ∧ fr.p2 ≤ 255 ∧ fr.dataBytes.length ≤ 255 ∧
      fr.requiredResponseStatusCodeFromDevice = [SW_OK]) ∧
    (∀ input fr, doKeyExchange input = Except.ok fr →
      fr.cla = 0xAA ∧ fr.p1 ≤ 255 ∧ fr.p2 ≤ 255 ∧ fr.dataBytes.length ≤ 255 ∧
      fr.requiredResponseStatusCodeFromDevice = [SW_OK]) ∧
    (∀ input fr, doSignHash input = Except.ok fr →
      fr.cla = 0xAA ∧ fr.p1 ≤ 255 ∧ fr.p2 ≤ 255 ∧
      fr.requiredResponseStatusCodeFromDevice = [SW_OK] ∧
      (input.hashToSign.length ≤ 233 → fr.dataBytes.length ≤ 255)) ∧
    (∀ input fr, signTxInitialSetupPackage input = Except.ok fr →
      fr.cla = 0xAA ∧ fr.p1 ≤ 255 ∧ fr.p2 ≤ 255 ∧
      fr.requiredResponseStatusCodeFromDevice = [SW_OK] ∧
      ((match input.nonNativeTokenRriHRP with
        | none => 0
        | some s => (utf8Bytes s).length) ≤ 227 → fr.dataBytes.length ≤ 255)) ∧
    (∀ input, (signTxStream input).cla = 0xAA ∧ (signTxStream input).p1 ≤ 255 ∧
      (signTxStream input).p2 ≤ 255 ∧
      (signTxStream input).requiredResponseStatusCodeFromDevice = [SW_OK] ∧
      (input.instructionBytes.length ≤ 255 →
        (signTxStream input).dataBytes.length ≤ 255)) := by
  refine ⟨by simp [getVersion, makeAPDU, radixCLA, RadixAPDUT.dataBytes],
          by simp [getAppName, makeAPDU, radixCLA, RadixAPDUT.dataBytes],
          ?_, ?_, ?_, ?_, ?_⟩
  · intro input fr h
    cases hp : hdPathToBuffer input.path with
    | error e => simp [getPublicKey, hp] at h
    | ok data =>
      simp only [getPublicKey, hp] at h
      cases h
      have hlen := hdPathToBuffer_length input.path data hp
      simp [makeAPDU, radixCLA, RadixAPDUT.dataBytes, hlen,
        parameterValueForDisplayAddressOnLedger]
      cases input.displayAddress <;> simp
  · intro input fr h
    cases hp : hdPathToBuffer input.path with
    | error e => simp [doKeyExchange, hp] at h
    | ok pathData =>
      simp only [doKeyExchange, hp] at h
      cases h
      have hlen := hdPathToBuffer_length input.path pathData hp
      have hpk := input.publicKeyOfOtherParty.2
      simp [makeAPDU, radixCLA, RadixAPDUT.dataBytes, hlen, hpk,
        parameterValueForDisplayECDHInputOnLedger]
      cases input.displayBIPAndPubKeyOtherParty <;> simp
  · intro input fr h
    cases hp : hdPathToBuffer input.path with
    | error e => simp [doSignHash, hp] at h
    | ok pathData =>
      simp only [doSignHash, hp] at h
      by_cases hh : input.hashToSign.length > 255
      · rw [if_pos hh] at h; cases h
      · rw [if_neg hh] at h
        cases h
        have hlen := hdPathToBuffer_length input.path pathData hp
        simp [makeAPDU, radixCLA, RadixAPDUT.dataBytes, hlen,
          parameterValueForDisplayAddressOnLedger]
        refine ⟨?_, fun hb => by omega⟩
        cases input.displayAddress <;> simp
  · intro input fr h
    cases hp : hdPathToBuffer input.path with
    | error e => simp [signTxInitialSetupPackage, hp] at h
    | ok pathData =>
      simp only [signTxInitialSetupPackage, hp] at h
      by_cases hh : (match input.nonNativeTokenRriHRP with
        | none => 0
        | some s => s.length) > 255
      · rw [if_pos hh] at h; cases h
      · rw [if_neg hh] at h
        cases h
        have hlen := hdPathToBuffer_length input.path pathData hp
        simp [makeAPDU, radixCLA, RadixAPDUT.dataBytes, hlen, u32be, u16be,
          FIRST_METADATA_APDU]
        intro hb
        cases hhrp : input.nonNativeTokenRriHRP with
        | none => simp [hhrp]
        | some s => rw [hhrp] at hb; simp at hb; simp [hhrp, hlen]; omega
  · intro input
    simp [signTxStream, makeAPDU, radixCLA, RadixAPDUT.dataBytes,
      SINGLE_RADIX_ENGINE_INSTRUCTION_APDU]
    cases input.isLastInstruction <;> simp

/-- A concrete GET_PUBLIC_KEY frame, used by the C9 witness. -/
def getPublicKeyDefaultFrame : RadixAPDUT :=
  { cla := 0xAA
    ins := LedgerInstruction.GET_PUBLIC_KEY
    p1 := 0
    p2 := 0
    data := some [5, 128, 0, 0, 44, 128, 0, 2, 24, 128, 0, 0, 0,
                  0, 0, 0, 0, 0, 0, 0, 0]
    requiredResponseStatusCodeFromDevice := [SW_OK] }

/-- C9 witness: the invariants applied to the GET_PUBLIC_KEY frame of the
default Radix path. -/
theorem C9_frame_invariants_witness :
    getPublicKey { path := radixDefaultPath, displayAddress := false } =
      Except.ok getPublicKeyDefaultFrame ∧
    (getPublicKeyDefaultFrame.cla = 0xAA ∧
      getPublicKeyDefaultFrame.p1 ≤ 255 ∧ getPublicKeyDefaultFrame.p2 ≤ 255 ∧
      getPublicKeyDefaultFrame.dataBytes.length ≤ 255 ∧
      getPublicKeyDefaultFrame.requiredResponseStatusCodeFromDevice = [SW_OK]) :=
  ⟨rfl, C9_frame_invariants.2.2.1
    { path := radixDefaultPath, displayAddress := false }
    getPublicKeyDefaultFrame rfl⟩

/-! ## Claim C7: the SIGN_TX frame stream -/

/-- A successful metadata frame carries `p1 = 0x4D`. -/
lemma signTxInitialSetupPackage_p1 (input : APDUDoSignTxInitialPackage)
    (fr : RadixAPDUT) (h : signTxInitialSetupPackage input = Except.ok fr) :
    fr.p1 = FIRST_METADATA_APDU := by
  cases hp : hdPathToBuffer input.path with
  | error e => simp [signTxInitialSetupPackage, hp] at h
  | ok pathData =>
    simp only [signTxInitialSetupPackage, hp] at h
    by_cases hh : (match input.nonNativeTokenRriHRP with
      | none => 0
      | some s => s.length) > 255
    · rw [if_pos hh] at h; cases h
    · rw [if_neg hh] at h
      cases h
      simp [makeAPDU]

/-- The SIGN_TX scenario setup of the spec: default path, 0x100 bytes,
two instructions, HRP foo. -/
def signTxScenarioSetup : APDUDoSignTxInitialPackage :=
  { path := radixDefaultPath
    txByteCount := 256
    nonNativeTokenRriHRP := some [102, 111, 111]
    numberOfInstructions := 2 }

/-- The metadata frame of the scenario. -/
def signTxScenarioMetaFrame : RadixAPDUT :=
  { cla := 0xAA
    ins := LedgerInstruction.DO_SIGN_TX
    p1 := 77
    p2 := 0
    data := some [5, 128, 0, 0, 44, 128, 0, 2, 24, 128, 0, 0, 0,
                  0, 0, 0, 0, 0, 0, 0, 0,
                  0, 0, 1, 0, 0, 2, 3, 102, 111, 111]
    requiredResponseStatusCodeFromDevice := [SW_OK] }

/-- The first instruction frame of the scenario. -/
def signTxScenarioFrameA : RadixAPDUT :=
  { cla := 0xAA
    ins := LedgerInstruction.DO_SIGN_TX
    p1 := 73
    p2 := 0
    data := some [1, 2]
    requiredResponseStatusCodeFromDevice := [SW_OK] }

/-- The second (last) instruction frame of the scenario. -/
def signTxScenarioFrameB : RadixAPDUT :=
  { cla := 0xAA
    ins := LedgerInstruction.DO_SIGN_TX
    p1 := 73
    p2 := 1
    data := some [3]
    requiredResponseStatusCodeFromDevice := [SW_OK] }

/-- A metadata input whose HRP is the single code unit 0xE9, which is one
UTF-16 unit but two UTF-8 bytes. -/
def nonAsciiHrpSetup : APDUDoSignTxInitialPackage :=
  { path := radixDefaultPath
    txByteCount := 0
    nonNativeTokenRriHRP := some [233]
    numberOfInstructions := 1 }

/-- C7 counterexample: on a non-ASCII HRP the metadata frame writes the
UTF-16 length into the hrp_len byte while appending the UTF-8 bytes, so
the hrp_len byte (1, at offset 27) is not the number of HRP bytes that
follow it (2: the data is 30 bytes, 28 of which precede the HRP). -/
theorem C7_counterexample :
    (signTxInitialSetupPackage nonAsciiHrpSetup).map
      (fun fr => (fr.dataBytes.drop 27, fr.dataBytes.length)) =
    Except.ok ([1, 195, 169], 30) := rfl

/-- C7 (amended): on the spec scenario (default path, tx_byte_count 0x100,
2 instructions, HRP foo, instructions [01 02] and [03]) the builders emit
the metadata frame with data path(21) 00 00 01 00 00 02 03 66 6F 6F, then
(p1 0x49, p2 0, data A), then (p1 0x49, p2 1, data B); the hrp_len byte
holds the UTF-16 length of the HRP, which equals the number of UTF-8 HRP
bytes that follow exactly when the HRP is ASCII; in general a SIGN_TX
stream of n instructions is one metadata frame with p1 = 0x4D followed by
n instruction frames with p1 = 0x49, with p2 = 1 on the last frame and 0
on all prior ones. -/
theorem C7_sign_tx_stream :
    signTxFullStream signTxScenarioSetup [[1, 2], [3]] =
      Except.ok [signTxScenarioMetaFrame, signTxScenarioFrameA, signTxScenarioFrameB] ∧
    (∀ s : JSString, (∀ u ∈ s, u < 128) → (utf8Bytes s).length = s.length) ∧
    (∀ setup instructions frames,
      signTxFullStream setup instructions = Except.ok frames →
      frames.length = instructions.length + 1 ∧
      (∀ meta, frames.head? = some meta → meta.p1 = FIRST_METADATA_APDU) ∧
      (∀ i fr, frames.get? (i + 1) = some fr →
        fr.p1 = SINGLE_RADIX_ENGINE_INSTRUCTION_APDU ∧
        fr.p2 = (if i + 1 = instructions.length then 1 else 0) ∧
        fr.dataBytes = (instructions.get? i).getD [])) := by
  refine ⟨rfl, ?_, ?_⟩
  · intro s hs
    induction s with
    | nil => rfl
    | cons u t ih =>
      have hu : u < 128 := hs u (by simp)
      have ht : ∀ x ∈ t, x < 128 := fun x hx => hs x (by simp [hx])
      simp [utf8Bytes, utf8BytesOfCodeUnit, hu] at ih ⊢
      exact ih ht
  · intro setup instructions frames h
    cases hm : signTxInitialSetupPackage setup with
    | error e => simp [signTxFullStream, hm] at h
    | ok meta =>
      simp only [signTxFullStream, hm] at h
      cases h
      refine ⟨by simp, ?_, ?_⟩
      · intro m hm2
        simp at hm2
        cases hm2
        exact signTxInitialSetupPackage_p1 setup meta hm
      · intro i fr hfr
        rw [List.get?_cons_succ, List.get?_map, List.get?_enum] at hfr
        cases he : instructions.get? i with
        | none => rw [he] at hfr; cases hfr
        | some bytes =>
          rw [he] at hfr
          simp only [Option.map_some'] at hfr
          cases hfr
          refine ⟨by simp [signTxStream, makeAPDU], ?_,
            by simp [signTxStream, makeAPDU, RadixAPDUT.dataBytes, he]⟩
          simp only [signTxStream, makeAPDU]
          by_cases hq : i + 1 = instructions.length
          · simp [hq]
          · simp [hq]

/-- C7 witness: the amended claim applied to the concrete scenario and to
the ASCII HRP foo. -/
theorem C7_sign_tx_stream_witness :
    signTxFullStream signTxScenarioSetup [[1, 2], [3]] =
      Except.ok [signTxScenarioMetaFrame, signTxScenarioFrameA, signTxScenarioFrameB] ∧
    [signTxScenarioMetaFrame, signTxScenarioFrameA,
      signTxScenarioFrameB].length = ([[1, 2], [3]] : List (List Nat)).length + 1 ∧
    (utf8Bytes [102, 111, 111]).length = ([102, 111, 111] : JSString).length :=
  ⟨C7_sign_tx_stream.1,
   (C7_sign_tx_stream.2.2 signTxScenarioSetup [[1, 2], [3]]
     [signTxScenarioMetaFrame, signTxScenarioFrameA, signTxScenarioFrameB]
     C7_sign_tx_stream.1).1,
   C7_sign_tx_stream.2.1 [102, 111, 111] (by decide)⟩

/-! ## Claim C10: token-amount round-trip and Tokens re-serialization -/

/-- Appending a byte multiplies the big-endian value by 256 and adds it. -/
lemma ofBytesBE_append (bs : List Nat) (x : Nat) :
    ofBytesBE (bs ++ [x]) = 256 * ofBytesBE bs + x := by
  simp [ofBytesBE, List.foldl_append, Nat.mul_comm]

/-- Big-endian encoding at the width of a byte list undoes its big-endian
value. -/
lemma bytesBE_ofBytesBE (b : List Nat) (hb : ∀ x ∈ b, x < 256) :
    bytesBE b.length (ofBytesBE b) = b := by
  induction b using List.reverseRecOn with
  | nil => rfl
  | append_singleton bs x ih =>
    have hx : x < 256 := hb x (by simp)
    have hbs : ∀ y ∈ bs, y < 256 := fun y hy => hb y (by simp [hy])
    have hlen : (bs ++ [x]).length = bs.length + 1 := by simp
    rw [hlen, ofBytesBE_append]
    show bytesBE bs.length ((256 * ofBytesBE bs + x) / 256) ++
      [(256 * ofBytesBE bs + x) % 256] = bs ++ [x]
    have h1 : (256 * ofBytesBE bs + x) / 256 = ofBytesBE bs := by omega
    have h2 : (256 * ofBytesBE bs + x) % 256 = x := by omega
    rw [h1, h2, ih hbs]

/-- Characterization of a successful `readNextBuffer`. -/
lemma readNextBuffer_ok (r : BufferReader) (n : Nat) (bs : List Nat)
    (r1 : BufferReader) (h : r.readNextBuffer n = Except.ok (bs, r1)) :
    r.offset + n ≤ r.bytes.length ∧ bs = (r.bytes.drop r.offset).take n ∧
    r1.bytes = r.bytes ∧ r1.offset = r.offset + n := by
  unfold BufferReader.readNextBuffer at h
  by_cases hc : r.offset + n ≤ r.bytes.length
  · rw [if_pos hc] at h
    cases h
    exact ⟨hc, rfl, rfl, rfl⟩
  · rw [if_neg hc] at h
    cases h

/-- A slice read inside the buffer has the requested length. -/
lemma slice_length (bytes : List Nat) (o n : Nat) (h : o + n ≤ bytes.length) :
    ((bytes.drop o).take n).length = n := by
  simp [List.length_take, List.length_drop]
  omega

/-- A slice decomposes at any split of its width. -/
lemma slice_append (bytes : List Nat) (o a b : Nat) :
    (bytes.drop o).take (a + b) =
    (bytes.drop o).take a ++ ((bytes.drop (o + a)).take b) := by
  rw [List.take_add, List.drop_drop]

/-- Characterization of a successful address parse: the re-serialization
is exactly the consumed slice. -/
lemma reAddress_fromBufferReader_ok (r : BufferReader) (a : REAddressT)
    (r1 : BufferReader) (h : REAddress.fromBufferReader r = Except.ok (a, r1)) :
    r1.bytes = r.bytes ∧ r.offset ≤ r1.offset ∧ r1.offset ≤ r.bytes.length ∧
    a.toBuffer = (r.bytes.drop r.offset).take (r1.offset - r.offset) := by
  cases h1 : r.readNextBuffer 1 with
  | error e => simp [REAddress.fromBufferReader, h1] at h
  | ok pr =>
    obtain ⟨tb, rA⟩ := pr
    obtain ⟨hb1, hb2, hb3, hb4⟩ := readNextBuffer_ok r 1 tb rA h1
    simp only [REAddress.fromBufferReader, h1] at h
    cases tb with
    | nil => simp at h
    | cons t rest =>
      cases rest with
      | cons y ys => simp at h
      | nil =>
        cases hpl : reAddressPayloadLength t with
        | none => simp [hpl] at h
        | some n =>
          simp only [hpl] at h
          cases h2 : rA.readNextBuffer n with
          | error e => simp [h2] at h
          | ok pr2 =>
            obtain ⟨payload, r2⟩ := pr2
            obtain ⟨hc1, hc2, hc3, hc4⟩ := readNextBuffer_ok rA n payload r2 h2
            simp only [h2] at h
            cases h
            have hrab : rA.bytes.length = r.bytes.length := by rw [hb3]
            refine ⟨by rw [hc3, hb3], by omega, by omega, ?_⟩
            have hsum : r1.offset - r.offset = 1 + n := by omega
            rw [hsum, slice_append r.bytes r.offset 1 n]
            unfold REAddressT.toBuffer
            have hslice1 : (r.bytes.drop r.offset).take 1 = [t] := by rw [← hb2]
            rw [hslice1]
            simp only [List.cons_append, List.nil_append]
            rw [hc2, hb3, hb4]

/-- Characterization of a successful amount parse: re-serializing the
amount gives back the consumed 32-byte slice. -/
lemma uint256FromReadBuffer_ok (r : BufferReader) (v : Nat) (r1 : BufferReader)
    (hbytes : ∀ x ∈ r.bytes, x < 256)
    (h : uint256FromReadBuffer r = Except.ok (v, r1)) :
    r1.bytes = r.bytes ∧ r1.offset = r.offset + 32 ∧
    r.offset + 32 ≤ r.bytes.length ∧
    amountToBuffer v = (r.bytes.drop r.offset).take 32 := by
  cases h1 : r.readNextBuffer uint256ByteCount with
  | error e => simp [uint256FromReadBuffer, h1] at h
  | ok pr =>
    obtain ⟨b, rA⟩ := pr
    obtain ⟨hb1, hb2, hb3, hb4⟩ := readNextBuffer_ok r uint256ByteCount b rA h1
    simp only [uint256ByteCount] at hb1 hb2 hb4
    simp only [uint256FromReadBuffer, h1] at h
    cases h
    refine ⟨hb3, hb4, hb1, ?_⟩
    have hblen : b.length = 32 := by
      rw [hb2]; exact slice_length _ _ _ hb1
    have hbmem : ∀ x ∈ b, x < 256 := by
      intro x hx
      rw [hb2] at hx
      exact hbytes x (List.mem_of_mem_drop (List.mem_of_mem_take hx))
    have hroundtrip : bytesBE 32 (ofBytesBE b) = b := by
      rw [← hblen]; exact bytesBE_ofBytesBE b hbmem
    unfold amountToBuffer toByteArray
    rw [List.reverse_reverse, hroundtrip, hb2]

/-- C10: reading a 32-byte amount and serializing it back yields the same
bytes, and every successfully parsed Tokens substate re-serializes to the
TOKENS tag byte followed by exactly the bytes consumed while parsing. -/
theorem C10_tokens_roundtrip :
    (∀ b : List Nat, b.length = 32 → (∀ x ∈ b, x < 256) →
      uint256FromReadBuffer { bytes := b, offset := 0 } =
        Except.ok (ofBytesBE b, { bytes := b, offset := 32 }) ∧
      amountToBuffer (ofBytesBE b) = b) ∧
    (∀ r tok r3, (∀ x ∈ r.bytes, x < 256) →
      Tokens.fromBufferReader r = Except.ok (tok, r3) →
      tok.toBuffer =
        SubStateType_TOKENS :: ((r.bytes.drop r.offset).take (r3.offset - r.offset))) := by
  constructor
  · intro b h32 hlt
    have htake : b.take 32 = b := by
      rw [← h32, List.take_length]
    constructor
    · simp only [uint256FromReadBuffer, BufferReader.readNextBuffer, uint256ByteCount]
      rw [if_pos (by simp [h32])]
      simp [htake]
    · have hroundtrip : bytesBE 32 (ofBytesBE b) = b := by
        rw [← h32]; exact bytesBE_ofBytesBE b hlt
      unfold amountToBuffer toByteArray
      rw [List.reverse_reverse, hroundtrip]
  · intro r tok r3 hbytes h
    cases h1 : REAddress.fromBufferReader r with
    | error e => simp [Tokens.fromBufferReader, h1] at h
    | ok pr1 =>
      obtain ⟨rri, r1⟩ := pr1
      simp only [Tokens.fromBufferReader, h1] at h
      cases h2 : REAddress.fromBufferReader r1 with
      | error e => simp [h2] at h
      | ok pr2 =>
        obtain ⟨owner, r2⟩ := pr2
        simp only [h2] at h
        cases h3 : uint256FromReadBuffer r2 with
        | error e => simp [h3] at h
        | ok pr3 =>
          obtain ⟨amount, r3x⟩ := pr3
          simp only [h3] at h
          cases h
          obtain ⟨ha1, ha2, ha3, ha4⟩ := reAddress_fromBufferReader_ok r rri r1 h1
          obtain ⟨hb1, hb2, hb3, hb4⟩ := reAddress_fromBufferReader_ok r1 owner r2 h2
          have hbytes2 : ∀ x ∈ r2.bytes, x < 256 := by
            rw [hb1, ha1]; exact hbytes
          obtain ⟨hc1, hc2, hc3, hc4⟩ := uint256FromReadBuffer_ok r2 amount r3 hbytes2 h3
          unfold TokensT.toBuffer
          have hsum : r3.offset - r.offset =
            (r1.offset - r.offset) + ((r2.offset - r1.offset) + 32) := by omega
          rw [hsum, slice_append r.bytes r.offset (r1.offset - r.offset) _]
          have ho1 : r.offset + (r1.offset - r.offset) = r1.offset := by omega
          rw [ho1, slice_append r.bytes r1.offset (r2.offset - r1.offset) 32]
          have ho2 : r1.offset + (r2.offset - r1.offset) = r2.offset := by omega
          rw [ho2]
          rw [ha4]
          have hb4x : owner.toBuffer = (r.bytes.drop r1.offset).take (r2.offset - r1.offset) := by
            rw [hb4, ha1]
          have hc4x : amountToBuffer amount = (r.bytes.drop r2.offset).take 32 := by
            rw [hc4, hb1, ha1]
          rw [hb4x, hc4x]
          simp

/-- The 32-byte big-endian encoding of seven, used by the C10 witness. -/
def amountBytesExample : List Nat :=
  [0, 0, 0, 0, 0, 0, 0, 0, 0, 0, 0, 0, 0, 0, 0, 0,
   0, 0, 0, 0, 0, 0, 0, 0, 0, 0, 0, 0, 0, 0, 0, 7]

/-- C10 witness: the round trip applied to a concrete 32-byte buffer. -/
theorem C10_tokens_roundtrip_witness :
    amountBytesExample.length = 32 ∧
    uint256FromReadBuffer { bytes := amountBytesExample, offset := 0 } =
      Except.ok (ofBytesBE amountBytesExample,
        { bytes := amountBytesExample, offset := 32 }) ∧
    amountToBuffer (ofBytesBE amountBytesExample) = amountBytesExample :=
  ⟨by decide,
   (C10_tokens_roundtrip.1 amountBytesExample (by decide) (by decide)).1,
   (C10_tokens_roundtrip.1 amountBytesExample (by decide) (by decide)).2⟩

/-! ## Trace algebra -/

lemma phasesOf_nil : phasesOf [] = [] := rfl

lemma phasesOf_cons_update (x : TransactionState) (t : TransactionTrackingEventType)
    (tr : List TrackingEvent) :
    phasesOf (TrackingEvent.stateUpdate x t :: tr) = t :: phasesOf tr := by
  simp [phasesOf]

lemma phasesOf_cons_error (e : RadixError) (ph : TransactionTrackingEventType)
    (tr : List TrackingEvent) :
    phasesOf (TrackingEvent.stateError e ph :: tr) = phasesOf tr := by
  simp [phasesOf]

lemma phasesOf_append (a b : List TrackingEvent) :
    phasesOf (a ++ b) = phasesOf a ++ phasesOf b := by
  simp [phasesOf]

lemma errorFree_append (a b : List TrackingEvent) :
    errorFree (a ++ b) = (errorFree a && errorFree b) := by
  simp [errorFree, List.all_append]

lemma errorFree_cons_update (x : TransactionState) (t : TransactionTrackingEventType)
    (tr : List TrackingEvent) :
    errorFree (TrackingEvent.stateUpdate x t :: tr) = errorFree tr := by
  simp [errorFree]

lemma errorEventsOf_append (a b : List TrackingEvent) :
    errorEventsOf (a ++ b) = errorEventsOf a ++ errorEventsOf b := by
  simp [errorEventsOf]

lemma errorEventsOf_of_errorFree (tr : List TrackingEvent)
    (h : errorFree tr = true) : errorEventsOf tr = [] := by
  induction tr with
  | nil => rfl
  | cons x rest ih =>
    cases x with
    | stateUpdate st t =>
      rw [errorFree_cons_update] at h
      simp [errorEventsOf]
      have := ih h
      simpa [errorEventsOf] using this
    | stateError e ph => simp [errorFree] at h

lemma updatesOf_cons_error (e : RadixError) (ph : TransactionTrackingEventType)
    (tr : List TrackingEvent) :
    updatesOf (TrackingEvent.stateError e ph :: tr) = updatesOf tr := by
  simp [updatesOf]

lemma validPhaseList_base_updates (n : Nat) :
    validPhaseList (basePhases ++ List.replicate n
      TransactionTrackingEventType.UPDATE_OF_STATUS_OF_PENDING_TX) = true := by
  have hlen : (basePhases ++ List.replicate n
      TransactionTrackingEventType.UPDATE_OF_STATUS_OF_PENDING_TX).length = 7 + n := by
    simp [basePhases]
    omega
  simp only [validPhaseList, hlen, Bool.or_eq_true, Bool.and_eq_true,
    decide_eq_true_eq, beq_iff_eq]
  left; right
  exact ⟨by omega, by rw [Nat.add_sub_cancel_left]⟩

lemma validPhaseList_base_updates_completed (n : Nat) :
    validPhaseList (basePhases ++ List.replicate n
      TransactionTrackingEventType.UPDATE_OF_STATUS_OF_PENDING_TX
      ++ [TransactionTrackingEventType.COMPLETED]) = true := by
  have hlen : (basePhases ++ List.replicate n
      TransactionTrackingEventType.UPDATE_OF_STATUS_OF_PENDING_TX
      ++ [TransactionTrackingEventType.COMPLETED]).length = 8 + n := by
    simp [basePhases]
    omega
  simp only [validPhaseList, hlen, Bool.or_eq_true, Bool.and_eq_true,
    decide_eq_true_eq, beq_iff_eq]
  right
  refine ⟨by omega, ?_⟩
  have h8 : 8 + n - 8 = n := by omega
  rw [h8]

lemma contiguousPrefixTrace_of_errorFree (tr : List TrackingEvent)
    (h1 : errorFree tr = true) (h2 : validPhaseList (phasesOf tr) = true) :
    contiguousPrefixTrace tr = true := by
  simp [contiguousPrefixTrace, h1, h2]

lemma contiguousPrefixTrace_concat_error (pre : List TrackingEvent)
    (e : RadixError) (ph : TransactionTrackingEventType)
    (h1 : errorFree pre = true) (h2 : validPhaseList (phasesOf pre) = true) :
    contiguousPrefixTrace (pre ++ [TrackingEvent.stateError e ph]) = true := by
  have herr : errorFree (pre ++ [TrackingEvent.stateError e ph]) = false := by
    rw [errorFree_append]
    simp [errorFree]
  simp [contiguousPrefixTrace, herr, List.getLast?_concat, List.dropLast_concat, h1, h2]

/-! ## Shape of the polling loop -/

lemma pollLoop_shape (ss : List StatusOfTransaction) : ∀ last,
    ((pollLoop last ss).completion = Completion.pending ∧
      errorFree (pollLoop last ss).events = true ∧
      ∃ n, phasesOf (pollLoop last ss).events =
        List.replicate n TransactionTrackingEventType.UPDATE_OF_STATUS_OF_PENDING_TX) ∨
    ((∃ t, (pollLoop last ss).completion = Completion.success t) ∧
      errorFree (pollLoop last ss).events = true ∧
      ∃ n, phasesOf (pollLoop last ss).events =
        List.replicate n TransactionTrackingEventType.UPDATE_OF_STATUS_OF_PENDING_TX
          ++ [TransactionTrackingEventType.COMPLETED]) ∨
    (∃ pre e, (pollLoop last ss).events =
        pre ++ [TrackingEvent.stateError e
          TransactionTrackingEventType.UPDATE_OF_STATUS_OF_PENDING_TX] ∧
      (pollLoop last ss).completion = Completion.failure e ∧
      errorFree pre = true ∧
      ∃ n, phasesOf pre = List.replicate n
        TransactionTrackingEventType.UPDATE_OF_STATUS_OF_PENDING_TX) := by
  induction ss with
  | nil => intro last; left; exact ⟨rfl, rfl, 0, rfl⟩
  | cons s rest ih =>
    intro last
    by_cases hd : last = some s.status
    · simpa [pollLoop, hd] using ih last
    · cases hs : s.status with
      | CONFIRMED =>
        rw [hs] at hd
        right; left
        refine ⟨⟨s.txID, by simp [pollLoop, hd, hs]⟩,
          by simp [pollLoop, hd, hs, errorFree], 1, ?_⟩
        simp [pollLoop, hd, hs, phasesOf, List.replicate]
      | FAILED =>
        rw [hs] at hd
        right; right
        refine ⟨[TrackingEvent.stateUpdate (TransactionState.ofStatus s)
          TransactionTrackingEventType.UPDATE_OF_STATUS_OF_PENDING_TX],
          RadixError.plain (failedStatusErrMsg s.txID), ?_, ?_, ?_, 1, ?_⟩
        · simp [pollLoop, hd, hs]
        · simp [pollLoop, hd, hs]
        · simp [errorFree]
        · simp [phasesOf, List.replicate]
      | PENDING =>
        rw [hs] at hd
        have hev : (pollLoop last (s :: rest)).events =
            TrackingEvent.stateUpdate (TransactionState.ofStatus s)
              TransactionTrackingEventType.UPDATE_OF_STATUS_OF_PENDING_TX ::
            (pollLoop (some TransactionStatus.PENDING) rest).events := by
          simp [pollLoop, hd, hs]
        have hcomp : (pollLoop last (s :: rest)).completion =
            (pollLoop (some TransactionStatus.PENDING) rest).completion := by
          simp [pollLoop, hd, hs]
        rcases ih (some TransactionStatus.PENDING) with
          ⟨hc, he, n, hp⟩ | ⟨⟨t, hc⟩, he, n, hp⟩ | ⟨pre, e, hevp, hc, he, n, hp⟩
        · left
          refine ⟨by rw [hcomp]; exact hc, ?_, n + 1, ?_⟩
          · rw [hev, errorFree_cons_update]; exact he
          · rw [hev, phasesOf_cons_update, hp, List.replicate_succ]
        · right; left
          refine ⟨⟨t, by rw [hcomp]; exact hc⟩, ?_, n + 1, ?_⟩
          · rw [hev, errorFree_cons_update]; exact he
          · rw [hev, phasesOf_cons_update, hp, List.replicate_succ]
            simp
        · right; right
          refine ⟨TrackingEvent.stateUpdate (TransactionState.ofStatus s)
            TransactionTrackingEventType.UPDATE_OF_STATUS_OF_PENDING_TX :: pre,
            e, ?_, by rw [hcomp]; exact hc, ?_, n + 1, ?_⟩
          · rw [hev, hevp]; rfl
          · rw [errorFree_cons_update]; exact he
          · rw [phasesOf_cons_update, hp, List.replicate_succ]

/-! ## Shape of the pipeline -/

/-- A successful signing outcome implies the signing capability ran. -/
lemma signUnsignedTx_ok_signCalled (env : PipelineEnv) (b : BuiltTransaction)
    (st : SignedTransaction) (h : (signUnsignedTx env b).result = Except.ok st) :
    (signUnsignedTx env b).signCalled = true := by
  unfold signUnsignedTx at h ⊢
  by_cases hu : (uniqueFirst (nonXRDHRPsOfRRIsInTx env.intent)).length > 1
  · rw [if_pos hu] at h; cases h
  · rw [if_neg hu]
    cases env.signResult <;> rfl

/-- Case analysis of the pipeline from the first confirmation on. -/
lemma runFromConfirmed_cases (env : PipelineEnv) (b : BuiltTransaction) :
    (∃ e, (signUnsignedTx env b).result = Except.error e ∧
      (runFromConfirmed env b).events =
        [TrackingEvent.stateError e TransactionTrackingEventType.FINALIZED] ∧
      (runFromConfirmed env b).completion = Completion.failure e ∧
      (runFromConfirmed env b).calls =
        (if (signUnsignedTx env b).signCalled then [ExtCall.accountSign] else [])) ∨
    (∃ st m, (signUnsignedTx env b).result = Except.ok st ∧
      env.finalizeResult = Except.error m ∧
      (runFromConfirmed env b).events =
        [TrackingEvent.stateUpdate (TransactionState.ofSigned st)
          TransactionTrackingEventType.SIGNED,
         TrackingEvent.stateError (RadixError.finalizeTx m)
          TransactionTrackingEventType.FINALIZED] ∧
      (runFromConfirmed env b).completion = Completion.failure (RadixError.finalizeTx m) ∧
      (runFromConfirmed env b).calls = [ExtCall.accountSign, ExtCall.finalizeTransaction]) ∨
    (∃ st f m, (signUnsignedTx env b).result = Except.ok st ∧
      env.finalizeResult = Except.ok f ∧ env.submitResult = Except.error m ∧
      (runFromConfirmed env b).events =
        [TrackingEvent.stateUpdate (TransactionState.ofSigned st)
          TransactionTrackingEventType.SIGNED,
         TrackingEvent.stateUpdate (TransactionState.ofFinalized f)
          TransactionTrackingEventType.FINALIZED,
         TrackingEvent.stateError (RadixError.submitSignedTx m)
          TransactionTrackingEventType.SUBMITTED] ∧
      (runFromConfirmed env b).completion =
        Completion.failure (RadixError.submitSignedTx m) ∧
      (runFromConfirmed env b).calls =
        [ExtCall.accountSign, ExtCall.finalizeTransaction,
         ExtCall.submitSignedTransaction]) ∨
    (∃ st f p, (signUnsignedTx env b).result = Except.ok st ∧
      env.finalizeResult = Except.ok f ∧ env.submitResult = Except.ok p ∧
      (runFromConfirmed env b).events =
        [TrackingEvent.stateUpdate (TransactionState.ofSigned st)
          TransactionTrackingEventType.SIGNED,
         TrackingEvent.stateUpdate (TransactionState.ofFinalized f)
          TransactionTrackingEventType.FINALIZED,
         TrackingEvent.stateUpdate (TransactionState.ofPending p)
          TransactionTrackingEventType.SUBMITTED] ++
        (pollLoop none env.statuses).events ∧
      (runFromConfirmed env b).completion = (pollLoop none env.statuses).completion ∧
      (runFromConfirmed env b).calls =
        [ExtCall.accountSign, ExtCall.finalizeTransaction,
         ExtCall.submitSignedTransaction] ++ (pollLoop none env.statuses).calls) := by
  cases hsr : (signUnsignedTx env b).result with
  | error e =>
    left
    exact ⟨e, rfl, by simp [runFromConfirmed, hsr], by simp [runFromConfirmed, hsr],
      by simp [runFromConfirmed, hsr]⟩
  | ok st =>
    have hsc := signUnsignedTx_ok_signCalled env b st hsr
    cases hf : env.finalizeResult with
    | error m =>
      right; left
      exact ⟨st, m, rfl, rfl, by simp [runFromConfirmed, hsr, hsc, hf],
        by simp [runFromConfirmed, hsr, hsc, hf], by simp [runFromConfirmed, hsr, hsc, hf]⟩
    | ok f =>
      cases hsub : env.submitResult with
      | error m =>
        right; right; left
        exact ⟨st, f, m, rfl, rfl, rfl,
          by simp [runFromConfirmed, hsr, hsc, hf, hsub],
          by simp [runFromConfirmed, hsr, hsc, hf, hsub],
          by simp [runFromConfirmed, hsr, hsc, hf, hsub]⟩
      | ok p =>
        right; right; right
        exact ⟨st, f, p, rfl, rfl, rfl,
          by simp [runFromConfirmed, hsr, hsc, hf, hsub],
          by simp [runFromConfirmed, hsr, hsc, hf, hsub],
          by simp [runFromConfirmed, hsr, hsc, hf, hsub]⟩

/-- Case analysis of the whole pipeline for at most one confirmation. -/
lemma makeTransactionFromIntent_cases (env : PipelineEnv)
    (hk : confirmEmissionCount env.userConfirmation ≤ 1) :
    (∃ m, env.buildResult = Except.error m ∧
      (makeTransactionFromIntent env).events =
        [TrackingEvent.stateUpdate (TransactionState.ofIntent env.intent)
          TransactionTrackingEventType.INITIATED,
         TrackingEvent.stateError (RadixError.buildTxFromIntent m)
          TransactionTrackingEventType.BUILT_FROM_INTENT] ∧
      (makeTransactionFromIntent env).completion =
        Completion.failure (RadixError.buildTxFromIntent m) ∧
      (makeTransactionFromIntent env).calls = [ExtCall.buildTransaction]) ∨
    (∃ b, env.buildResult = Except.ok b ∧
      confirmEmissionCount env.userConfirmation = 0 ∧
      (makeTransactionFromIntent env).events =
        [TrackingEvent.stateUpdate (TransactionState.ofIntent env.intent)
          TransactionTrackingEventType.INITIATED,
         TrackingEvent.stateUpdate (TransactionState.ofBuilt b)
          TransactionTrackingEventType.BUILT_FROM_INTENT,
         TrackingEvent.stateUpdate (TransactionState.ofBuilt b)
          TransactionTrackingEventType.ASKED_FOR_CONFIRMATION] ∧
      (makeTransactionFromIntent env).completion = Completion.pending ∧
      (makeTransactionFromIntent env).calls = [ExtCall.buildTransaction]) ∨
    (∃ b, env.buildResult = Except.ok b ∧
      confirmEmissionCount env.userConfirmation = 1 ∧
      (makeTransactionFromIntent env).events =
        [TrackingEvent.stateUpdate (TransactionState.ofIntent env.intent)
          TransactionTrackingEventType.INITIATED,
         TrackingEvent.stateUpdate (TransactionState.ofBuilt b)
          TransactionTrackingEventType.BUILT_FROM_INTENT,
         TrackingEvent.stateUpdate (TransactionState.ofBuilt b)
          TransactionTrackingEventType.ASKED_FOR_CONFIRMATION,
         TrackingEvent.stateUpdate (TransactionState.ofBuilt b)
          TransactionTrackingEventType.CONFIRMED] ++
        (runFromConfirmed env b).events ∧
      (makeTransactionFromIntent env).completion = (runFromConfirmed env b).completion ∧
      (makeTransactionFromIntent env).calls =
        ExtCall.buildTransaction :: (runFromConfirmed env b).calls) := by
  cases hb : env.buildResult with
  | error m =>
    left
    exact ⟨m, rfl, by simp [makeTransactionFromIntent, hb],
      by simp [makeTransactionFromIntent, hb], by simp [makeTransactionFromIntent, hb]⟩
  | ok b =>
    by_cases hk0 : confirmEmissionCount env.userConfirmation = 0
    · right; left
      exact ⟨b, rfl, hk0, by simp [makeTransactionFromIntent, hb, hk0],
        by simp [makeTransactionFromIntent, hb, hk0],
        by simp [makeTransactionFromIntent, hb, hk0]⟩
    · have hk1 : confirmEmissionCount env.userConfirmation = 1 := by omega
      right; right
      refine ⟨b, rfl, hk1, ?_, ?_, ?_⟩ <;>
        simp [makeTransactionFromIntent, hb, hk1, hk0, List.replicate]

/-! ## Claim C1: tracking events follow the state-machine order -/

/-- An intent holding one native-token transfer. -/
def xrdIntent : TransactionIntent :=
  { actions := [IntentAction.transferTokens "xrd"] }

/-- A fully successful environment whose manual rendezvous sees two
`confirm()` calls. -/
def envManualTwo : PipelineEnv :=
  { intent := xrdIntent
    accountPublicKey := 9
    buildResult := Except.ok { transaction := [10, 11] }
    signResult := Except.ok 77
    finalizeResult := Except.ok { txID := 42 }
    submitResult := Except.ok { txID := 42 }
    statuses := [{ txID := 42, status := TransactionStatus.CONFIRMED }]
    userConfirmation := UserConfirmation.manual 2 }

/-- The same environment with a single `confirm()` call. -/
def envManualOne : PipelineEnv :=
  { envManualTwo with userConfirmation := UserConfirmation.manual 1 }

/-- C1 counterexample: when the caller invokes `confirm()` twice, the
emitted phase sequence repeats CONFIRMED and is no longer a contiguous
prefix of the claimed pattern. -/
theorem C1_counterexample :
    contiguousPrefixTrace (makeTransactionFromIntent envManualTwo).events = false := by
  decide

/-- C1 (amended): for every transaction whose confirmation callback is
invoked at most once, the tracking event stream is a contiguous prefix of
INITIATED, BUILT_FROM_INTENT, ASKED_FOR_CONFIRMATION, CONFIRMED, SIGNED,
FINALIZED, SUBMITTED, UPDATE_OF_STATUS_OF_PENDING_TX repeated, COMPLETED,
terminated by at most one error event, which is final; invoking the
callback more than once repeats the CONFIRMED phase (see C6). -/
theorem C1_trace_order (env : PipelineEnv)
    (hk : confirmEmissionCount env.userConfirmation ≤ 1) :
    contiguousPrefixTrace (makeTransactionFromIntent env).events = true := by
  rcases makeTransactionFromIntent_cases env hk with
    ⟨m, hb, hev, hc, hca⟩ | ⟨b, hb, hk0, hev, hc, hca⟩ | ⟨b, hb, hk1, hev, hc, hca⟩
  · rw [hev]
    exact contiguousPrefixTrace_concat_error
      [TrackingEvent.stateUpdate (TransactionState.ofIntent env.intent)
        TransactionTrackingEventType.INITIATED] _ _
      (by simp [errorFree])
      (by simp only [phasesOf_cons_update, phasesOf_nil]; decide)
  · rw [hev]
    apply contiguousPrefixTrace_of_errorFree
    · simp [errorFree]
    · simp only [phasesOf_cons_update, phasesOf_nil]
      decide
  · rw [hev]
    rcases runFromConfirmed_cases env b with
      ⟨e, hsr, hev2, hc2, hca2⟩ | ⟨st, m, hsr, hf, hev2, hc2, hca2⟩ |
      ⟨st, f, m, hsr, hf, hsub, hev2, hc2, hca2⟩ |
      ⟨st, f, p, hsr, hf, hsub, hev2, hc2, hca2⟩
    · rw [hev2]
      exact contiguousPrefixTrace_concat_error
        [TrackingEvent.stateUpdate (TransactionState.ofIntent env.intent)
          TransactionTrackingEventType.INITIATED,
         TrackingEvent.stateUpdate (TransactionState.ofBuilt b)
          TransactionTrackingEventType.BUILT_FROM_INTENT,
         TrackingEvent.stateUpdate (TransactionState.ofBuilt b)
          TransactionTrackingEventType.ASKED_FOR_CONFIRMATION,
         TrackingEvent.stateUpdate (TransactionState.ofBuilt b)
          TransactionTrackingEventType.CONFIRMED] _ _
        (by simp [errorFree])
        (by simp only [phasesOf_cons_update, phasesOf_nil]; decide)
    · rw [hev2]
      exact contiguousPrefixTrace_concat_error
        [TrackingEvent.stateUpdate (TransactionState.ofIntent env.intent)
          TransactionTrackingEventType.INITIATED,
         TrackingEvent.stateUpdate (TransactionState.ofBuilt b)
          TransactionTrackingEventType.BUILT_FROM_INTENT,
         TrackingEvent.stateUpdate (TransactionState.ofBuilt b)
          TransactionTrackingEventType.ASKED_FOR_CONFIRMATION,
         TrackingEvent.stateUpdate (TransactionState.ofBuilt b)
          TransactionTrackingEventType.CONFIRMED,
         TrackingEvent.stateUpdate (TransactionState.ofSigned st)
          TransactionTrackingEventType.SIGNED] _ _
        (by simp [errorFree])
        (by simp only [phasesOf_cons_update, phasesOf_nil]; decide)
    · rw [hev2]
      exact contiguousPrefixTrace_concat_error
        [TrackingEvent.stateUpdate (TransactionState.ofIntent env.intent)
          TransactionTrackingEventType.INITIATED,
         TrackingEvent.stateUpdate (TransactionState.ofBuilt b)
          TransactionTrackingEventType.BUILT_FROM_INTENT,
         TrackingEvent.stateUpdate (TransactionState.ofBuilt b)
          TransactionTrackingEventType.ASKED_FOR_CONFIRMATION,
         TrackingEvent.stateUpdate (TransactionState.ofBuilt b)
          TransactionTrackingEventType.CONFIRMED,
         TrackingEvent.stateUpdate (TransactionState.ofSigned st)
          TransactionTrackingEventType.SIGNED,
         TrackingEvent.stateUpdate (TransactionState.ofFinalized f)
          TransactionTrackingEventType.FINALIZED] _ _
        (by simp [errorFree])
        (by simp only [phasesOf_cons_update, phasesOf_nil]; decide)
    · rw [hev2]
      rcases pollLoop_shape env.statuses none with
        ⟨hc3, he3, n, hp3⟩ | ⟨⟨t, hc3⟩, he3, n, hp3⟩ | ⟨pre, e, hevp, hc3, he3, n, hp3⟩
      · apply contiguousPrefixTrace_of_errorFree
        · rw [errorFree_append, errorFree_append, he3]
          rfl
        · have hp : phasesOf
              ([TrackingEvent.stateUpdate (TransactionState.ofIntent env.intent)
                  TransactionTrackingEventType.INITIATED,
                TrackingEvent.stateUpdate (TransactionState.ofBuilt b)
                  TransactionTrackingEventType.BUILT_FROM_INTENT,
                TrackingEvent.stateUpdate (TransactionState.ofBuilt b)
                  TransactionTrackingEventType.ASKED_FOR_CONFIRMATION,
                TrackingEvent.stateUpdate (TransactionState.ofBuilt b)
                  TransactionTrackingEventType.CONFIRMED] ++
               ([TrackingEvent.stateUpdate (TransactionState.ofSigned st)
                  TransactionTrackingEventType.SIGNED,
                 TrackingEvent.stateUpdate (TransactionState.ofFinalized f)
                  TransactionTrackingEventType.FINALIZED,
                 TrackingEvent.stateUpdate (TransactionState.ofPending p)
                  TransactionTrackingEventType.SUBMITTED] ++
                (pollLoop none env.statuses).events)) =
              basePhases ++ List.replicate n
                TransactionTrackingEventType.UPDATE_OF_STATUS_OF_PENDING_TX := by
            simp [phasesOf_append, phasesOf_cons_update, phasesOf_nil, hp3, basePhases]
          rw [hp]
          exact validPhaseList_base_updates n
      · apply contiguousPrefixTrace_of_errorFree
        · rw [errorFree_append, errorFree_append, he3]
          rfl
        · have hp : phasesOf
              ([TrackingEvent.stateUpdate (TransactionState.ofIntent env.intent)
                  TransactionTrackingEventType.INITIATED,
                TrackingEvent.stateUpdate (TransactionState.ofBuilt b)
                  TransactionTrackingEventType.BUILT_FROM_INTENT,
                TrackingEvent.stateUpdate (TransactionState.ofBuilt b)
                  TransactionTrackingEventType.ASKED_FOR_CONFIRMATION,
                TrackingEvent.stateUpdate (TransactionState.ofBuilt b)
                  TransactionTrackingEventType.CONFIRMED] ++
               ([TrackingEvent.stateUpdate (TransactionState.ofSigned st)
                  TransactionTrackingEventType.SIGNED,
                 TrackingEvent.stateUpdate (TransactionState.ofFinalized f)
                  TransactionTrackingEventType.FINALIZED,
                 TrackingEvent.stateUpdate (TransactionState.ofPending p)
                  TransactionTrackingEventType.SUBMITTED] ++
                (pollLoop none env.statuses).events)) =
              basePhases ++ List.replicate n
                TransactionTrackingEventType.UPDATE_OF_STATUS_OF_PENDING_TX
                ++ [TransactionTrackingEventType.COMPLETED] := by
            simp [phasesOf_append, phasesOf_cons_update, phasesOf_nil, hp3, basePhases]
          rw [hp]
          exact validPhaseList_base_updates_completed n
      · have ht : ([TrackingEvent.stateUpdate (TransactionState.ofIntent env.intent)
              TransactionTrackingEventType.INITIATED,
            TrackingEvent.stateUpdate (TransactionState.ofBuilt b)
              TransactionTrackingEventType.BUILT_FROM_INTENT,
            TrackingEvent.stateUpdate (TransactionState.ofBuilt b)
              TransactionTrackingEventType.ASKED_FOR_CONFIRMATION,
            TrackingEvent.stateUpdate (TransactionState.ofBuilt b)
              TransactionTrackingEventType.CONFIRMED] ++
           ([TrackingEvent.stateUpdate (TransactionState.ofSigned st)
              TransactionTrackingEventType.SIGNED,
             TrackingEvent.stateUpdate (TransactionState.ofFinalized f)
              TransactionTrackingEventType.FINALIZED,
             TrackingEvent.stateUpdate (TransactionState.ofPending p)
              TransactionTrackingEventType.SUBMITTED] ++
            (pollLoop none env.statuses).events)) =
            (([TrackingEvent.stateUpdate (TransactionState.ofIntent env.intent)
                TransactionTrackingEventType.INITIATED,
              TrackingEvent.stateUpdate (TransactionState.ofBuilt b)
                TransactionTrackingEventType.BUILT_FROM_INTENT,
              TrackingEvent.stateUpdate (TransactionState.ofBuilt b)
                TransactionTrackingEventType.ASKED_FOR_CONFIRMATION,
              TrackingEvent.stateUpdate (TransactionState.ofBuilt b)
                TransactionTrackingEventType.CONFIRMED,
              TrackingEvent.stateUpdate (TransactionState.ofSigned st)
                TransactionTrackingEventType.SIGNED,
              TrackingEvent.stateUpdate (TransactionState.ofFinalized f)
                TransactionTrackingEventType.FINALIZED,
              TrackingEvent.stateUpdate (TransactionState.ofPending p)
                TransactionTrackingEventType.SUBMITTED] ++ pre) ++
             [TrackingEvent.stateError e
               TransactionTrackingEventType.UPDATE_OF_STATUS_OF_PENDING_TX]) := by
          rw [hevp]
          simp
        rw [ht]
        apply contiguousPrefixTrace_concat_error
        · rw [errorFree_append, he3]
          rfl
        · have hp : phasesOf
              ([TrackingEvent.stateUpdate (TransactionState.ofIntent env.intent)
                  TransactionTrackingEventType.INITIATED,
                TrackingEvent.stateUpdate (TransactionState.ofBuilt b)
                  TransactionTrackingEventType.BUILT_FROM_INTENT,
                TrackingEvent.stateUpdate (TransactionState.ofBuilt b)
                  TransactionTrackingEventType.ASKED_FOR_CONFIRMATION,
                TrackingEvent.stateUpdate (TransactionState.ofBuilt b)
                  TransactionTrackingEventType.CONFIRMED,
                TrackingEvent.stateUpdate (TransactionState.ofSigned st)
                  TransactionTrackingEventType.SIGNED,
                TrackingEvent.stateUpdate (TransactionState.ofFinalized f)
                  TransactionTrackingEventType.FINALIZED,
                TrackingEvent.stateUpdate (TransactionState.ofPending p)
                  TransactionTrackingEventType.SUBMITTED] ++ pre) =
              basePhases ++ List.replicate n
                TransactionTrackingEventType.UPDATE_OF_STATUS_OF_PENDING_TX := by
            simp [phasesOf_append, phasesOf_cons_update, phasesOf_nil, hp3, basePhases]
          rw [hp]
          exact validPhaseList_base_updates n

/-- C1 witness: the amended claim applied to a concrete single-confirmation
environment. -/
theorem C1_trace_order_witness :
    confirmEmissionCount envManualOne.userConfirmation ≤ 1 ∧
    contiguousPrefixTrace (makeTransactionFromIntent envManualOne).events = true :=
  ⟨by decide, C1_trace_order envManualOne (by decide)⟩

/-! ## Claim C2: failure reporting -/

/-- C2: a build failure with message m is tracked as the single error
event BuildTxFromIntent(m) in phase BUILT_FROM_INTENT, right after the
INITIATED event and with nothing after it, and fails the completion
output with the same error; in general (at most one confirmation) a
pipeline run either has no error event and a non-failing completion, or
exactly one error event whose error also fails the completion. -/
theorem C2_build_failure_reporting :
    (∀ env m, env.buildResult = Except.error m →
      (makeTransactionFromIntent env).events =
        [TrackingEvent.stateUpdate (TransactionState.ofIntent env.intent)
          TransactionTrackingEventType.INITIATED,
         TrackingEvent.stateError (RadixError.buildTxFromIntent m)
          TransactionTrackingEventType.BUILT_FROM_INTENT] ∧
      (makeTransactionFromIntent env).completion =
        Completion.failure (RadixError.buildTxFromIntent m)) ∧
    (∀ env, confirmEmissionCount env.userConfirmation ≤ 1 →
      (errorEventsOf (makeTransactionFromIntent env).events = [] ∧
        ∀ e, (makeTransactionFromIntent env).completion ≠ Completion.failure e) ∨
      (∃ e ph, errorEventsOf (makeTransactionFromIntent env).events = [(e, ph)] ∧
        (makeTransactionFromIntent env).completion = Completion.failure e)) := by
  constructor
  · intro env m h
    exact ⟨by simp [makeTransactionFromIntent, h], by simp [makeTransactionFromIntent, h]⟩
  · intro env hk
    rcases makeTransactionFromIntent_cases env hk with
      ⟨m, hb, hev, hc, hca⟩ | ⟨b, hb, hk0, hev, hc, hca⟩ | ⟨b, hb, hk1, hev, hc, hca⟩
    · right
      exact ⟨RadixError.buildTxFromIntent m,
        TransactionTrackingEventType.BUILT_FROM_INTENT,
        by rw [hev]; simp [errorEventsOf], hc⟩
    · left
      refine ⟨by rw [hev]; simp [errorEventsOf], ?_⟩
      intro e he
      rw [hc] at he
      cases he
    · rcases runFromConfirmed_cases env b with
        ⟨e, hsr, hev2, hc2, hca2⟩ | ⟨st, m, hsr, hf, hev2, hc2, hca2⟩ |
        ⟨st, f, m, hsr, hf, hsub, hev2, hc2, hca2⟩ |
        ⟨st, f, p, hsr, hf, hsub, hev2, hc2, hca2⟩
      · right
        exact ⟨e, TransactionTrackingEventType.FINALIZED,
          by rw [hev, hev2]; simp [errorEventsOf], by rw [hc, hc2]⟩
      · right
        exact ⟨RadixError.finalizeTx m, TransactionTrackingEventType.FINALIZED,
          by rw [hev, hev2]; simp [errorEventsOf], by rw [hc, hc2]⟩
      · right
        exact ⟨RadixError.submitSignedTx m, TransactionTrackingEventType.SUBMITTED,
          by rw [hev, hev2]; simp [errorEventsOf], by rw [hc, hc2]⟩
      · rcases pollLoop_shape env.statuses none with
          ⟨hc3, he3, n, hp3⟩ | ⟨⟨t, hc3⟩, he3, n, hp3⟩ | ⟨pre, e, hevp, hc3, he3, n, hp3⟩
        · left
          refine ⟨?_, ?_⟩
          · rw [hev, hev2, errorEventsOf_append, errorEventsOf_append,
              errorEventsOf_of_errorFree _ he3]
            simp [errorEventsOf]
          · intro e he
            rw [hc, hc2, hc3] at he
            cases he
        · left
          refine ⟨?_, ?_⟩
          · rw [hev, hev2, errorEventsOf_append, errorEventsOf_append,
              errorEventsOf_of_errorFree _ he3]
            simp [errorEventsOf]
          · intro e he
            rw [hc, hc2, hc3] at he
            cases he
        · right
          refine ⟨e, TransactionTrackingEventType.UPDATE_OF_STATUS_OF_PENDING_TX,
            ?_, by rw [hc, hc2, hc3]⟩
          rw [hev, hev2, hevp, errorEventsOf_append, errorEventsOf_append,
            errorEventsOf_append, errorEventsOf_of_errorFree _ he3]
          simp [errorEventsOf]

/-- An environment whose build call fails. -/
def envBuildFails : PipelineEnv :=
  { envManualTwo with
    buildResult := Except.error "intent invalid"
    userConfirmation := UserConfirmation.skip }

/-- C2 witness: the build-failure scenario of the spec, with message
"intent invalid", and the general double-reporting shape on the same
environment. -/
theorem C2_build_failure_reporting_witness :
    ((makeTransactionFromIntent envBuildFails).events =
      [TrackingEvent.stateUpdate (TransactionState.ofIntent envBuildFails.intent)
        TransactionTrackingEventType.INITIATED,
       TrackingEvent.stateError (RadixError.buildTxFromIntent "intent invalid")
        TransactionTrackingEventType.BUILT_FROM_INTENT] ∧
     (makeTransactionFromIntent envBuildFails).completion =
       Completion.failure (RadixError.buildTxFromIntent "intent invalid")) ∧
    ((errorEventsOf (makeTransactionFromIntent envBuildFails).events = [] ∧
        ∀ e, (makeTransactionFromIntent envBuildFails).completion ≠ Completion.failure e) ∨
     (∃ e ph, errorEventsOf (makeTransactionFromIntent envBuildFails).events = [(e, ph)] ∧
        (makeTransactionFromIntent envBuildFails).completion = Completion.failure e)) :=
  ⟨C2_build_failure_reporting.1 envBuildFails "intent invalid" rfl,
   C2_build_failure_reporting.2 envBuildFails (by decide)⟩

/-! ## Claim C4: the in_phase tag of terminal error events -/

/-- A fully successful environment except that the device rejects the
signature, with automatic confirmation. -/
def envSignDeviceError : PipelineEnv :=
  { envManualTwo with
    signResult := Except.error "device rejected"
    userConfirmation := UserConfirmation.skip }

/-- C4 counterexample: an error raised inside the signing step is
observed by the error handler of the finalize stage and tagged FINALIZED,
not with the signing phase tag as the claim states. -/
theorem C4_counterexample :
    errorEventsOf (makeTransactionFromIntent envSignDeviceError).events =
      [(RadixError.plain "device rejected",
        TransactionTrackingEventType.FINALIZED)] := by
  decide

/-- C4 (amended): with at most one confirmation, a build failure is
tagged BUILT_FROM_INTENT; an error raised inside the signing step (the
multi-RRI rejection or a device failure) is tagged FINALIZED, because the
signing stage has no error handler of its own and the finalize stage
observes the error; a finalize failure is tagged FINALIZED; a submit
failure SUBMITTED; and with every stage successful any error event comes
from the status poll and is tagged UPDATE_OF_STATUS_OF_PENDING_TX. -/
theorem C4_error_phase_tags (env : PipelineEnv)
    (hk : confirmEmissionCount env.userConfirmation ≤ 1) :
    (∀ m, env.buildResult = Except.error m →
      errorEventsOf (makeTransactionFromIntent env).events =
        [(RadixError.buildTxFromIntent m,
          TransactionTrackingEventType.BUILT_FROM_INTENT)]) ∧
    (∀ b e, env.buildResult = Except.ok b →
      confirmEmissionCount env.userConfirmation = 1 →
      (signUnsignedTx env b).result = Except.error e →
      errorEventsOf (makeTransactionFromIntent env).events =
        [(e, TransactionTrackingEventType.FINALIZED)]) ∧
    (∀ b st m, env.buildResult = Except.ok b →
      confirmEmissionCount env.userConfirmation = 1 →
      (signUnsignedTx env b).result = Except.ok st →
      env.finalizeResult = Except.error m →
      errorEventsOf (makeTransactionFromIntent env).events =
        [(RadixError.finalizeTx m, TransactionTrackingEventType.FINALIZED)]) ∧
    (∀ b st f m, env.buildResult = Except.ok b →
      confirmEmissionCount env.userConfirmation = 1 →
      (signUnsignedTx env b).result = Except.ok st →
      env.finalizeResult = Except.ok f →
      env.submitResult = Except.error m →
      errorEventsOf (makeTransactionFromIntent env).events =
        [(RadixError.submitSignedTx m, TransactionTrackingEventType.SUBMITTED)]) ∧
    (∀ b st f p, env.buildResult = Except.ok b →
      (signUnsignedTx env b).result = Except.ok st →
      env.finalizeResult = Except.ok f →
      env.submitResult = Except.ok p →
      ∀ pr ∈ errorEventsOf (makeTransactionFromIntent env).events,
        pr.2 = TransactionTrackingEventType.UPDATE_OF_STATUS_OF_PENDING_TX) := by
  refine ⟨?_, ?_, ?_, ?_, ?_⟩
  · intro m h
    simp [makeTransactionFromIntent, h, errorEventsOf]
  · intro b e hb hk1 hsr
    rcases makeTransactionFromIntent_cases env hk with
      ⟨m, hb2, hev, hc, hca⟩ | ⟨b2, hb2, hk0, hev, hc, hca⟩ | ⟨b2, hb2, hk1b, hev, hc, hca⟩
    · rw [hb] at hb2; cases hb2
    · rw [hk1] at hk0; cases hk0
    · rw [hb] at hb2
      cases hb2
      rcases runFromConfirmed_cases env b with
        ⟨e2, hsr2, hev2, hc2, hca2⟩ | ⟨st, m, hsr2, hf, hev2, hc2, hca2⟩ |
        ⟨st, f, m, hsr2, hf, hsub, hev2, hc2, hca2⟩ |
        ⟨st, f, p, hsr2, hf, hsub, hev2, hc2, hca2⟩
      · rw [hsr] at hsr2
        cases hsr2
        rw [hev, hev2]
        simp [errorEventsOf]
      · rw [hsr] at hsr2; cases hsr2
      · rw [hsr] at hsr2; cases hsr2
      · rw [hsr] at hsr2; cases hsr2
  · intro b st m hb hk1 hsr hf
    rcases makeTransactionFromIntent_cases env hk with
      ⟨m2, hb2, hev, hc, hca⟩ | ⟨b2, hb2, hk0, hev, hc, hca⟩ | ⟨b2, hb2, hk1b, hev, hc, hca⟩
    · rw [hb] at hb2; cases hb2
    · rw [hk1] at hk0; cases hk0
    · rw [hb] at hb2
      cases hb2
      rcases runFromConfirmed_cases env b with
        ⟨e2, hsr2, hev2, hc2, hca2⟩ | ⟨st2, m2, hsr2, hf2, hev2, hc2, hca2⟩ |
        ⟨st2, f2, m2, hsr2, hf2, hsub2, hev2, hc2, hca2⟩ |
        ⟨st2, f2, p2, hsr2, hf2, hsub2, hev2, hc2, hca2⟩
      · rw [hsr] at hsr2; cases hsr2
      · rw [hf] at hf2
        cases hf2
        rw [hev, hev2]
        simp [errorEventsOf]
      · rw [hf] at hf2; cases hf2
      · rw [hf] at hf2; cases hf2
  · intro b st f m hb hk1 hsr hf hsub
    rcases makeTransactionFromIntent_cases env hk with
      ⟨m2, hb2, hev, hc, hca⟩ | ⟨b2, hb2, hk0, hev, hc, hca⟩ | ⟨b2, hb2, hk1b, hev, hc, hca⟩
    · rw [hb] at hb2; cases hb2
    · rw [hk1] at hk0; cases hk0
    · rw [hb] at hb2
      cases hb2
      rcases runFromConfirmed_cases env b with
        ⟨e2, hsr2, hev2, hc2, hca2⟩ | ⟨st2, m2, hsr2, hf2, hev2, hc2, hca2⟩ |
        ⟨st2, f2, m2, hsr2, hf2, hsub2, hev2, hc2, hca2⟩ |
        ⟨st2, f2, p2, hsr2, hf2, hsub2, hev2, hc2, hca2⟩
      · rw [hsr] at hsr2; cases hsr2
      · rw [hf] at hf2; cases hf2
      · rw [hsub] at hsub2
        cases hsub2
        rw [hev, hev2]
        simp [errorEventsOf]
      · rw [hsub] at hsub2; cases hsub2
  · intro b st f p hb hsr hf hsub pr hpr
    by_cases hk0 : confirmEmissionCount env.userConfirmation = 0
    · rcases makeTransactionFromIntent_cases env hk with
        ⟨m2, hb2, hev, hc, hca⟩ | ⟨b2, hb2, hk0b, hev, hc, hca⟩ | ⟨b2, hb2, hk1b, hev, hc, hca⟩
      · rw [hb] at hb2; cases hb2
      · rw [hev] at hpr
        simp [errorEventsOf] at hpr
      · rw [hk1b] at hk0; cases hk0
    · have hk1 : confirmEmissionCount env.userConfirmation = 1 := by omega
      rcases makeTransactionFromIntent_cases env hk with
        ⟨m2, hb2, hev, hc, hca⟩ | ⟨b2, hb2, hk0b, hev, hc, hca⟩ | ⟨b2, hb2, hk1b, hev, hc, hca⟩
      · rw [hb] at hb2; cases hb2
      · rw [hk0b] at hk0; cases hk0 rfl
      · rw [hb] at hb2
        cases hb2
        rcases runFromConfirmed_cases env b with
          ⟨e2, hsr2, hev2, hc2, hca2⟩ | ⟨st2, m2, hsr2, hf2, hev2, hc2, hca2⟩ |
          ⟨st2, f2, m2, hsr2, hf2, hsub2, hev2, hc2, hca2⟩ |
          ⟨st2, f2, p2, hsr2, hf2, hsub2, hev2, hc2, hca2⟩
        · rw [hsr] at hsr2; cases hsr2
        · rw [hf] at hf2; cases hf2
        · rw [hsub] at hsub2; cases hsub2
        · rw [hev, hev2] at hpr
          rcases pollLoop_shape env.statuses none with
            ⟨hc3, he3, n, hp3⟩ | ⟨⟨t, hc3⟩, he3, n, hp3⟩ | ⟨pre, e, hevp, hc3, he3, n, hp3⟩
          · rw [errorEventsOf_append, errorEventsOf_append,
              errorEventsOf_of_errorFree _ he3] at hpr
            simp [errorEventsOf] at hpr
          · rw [errorEventsOf_append, errorEventsOf_append,
              errorEventsOf_of_errorFree _ he3] at hpr
            simp [errorEventsOf] at hpr
          · rw [hevp, errorEventsOf_append, errorEventsOf_append,
              errorEventsOf_append, errorEventsOf_of_errorFree _ he3] at hpr
            simp [errorEventsOf] at hpr
            rw [hpr]

/-- C4 witness: the amended claim applied to the device-rejection
environment: the signing error is tagged FINALIZED. -/
theorem C4_error_phase_tags_witness :
    envSignDeviceError.buildResult = Except.ok { transaction := [10, 11] } ∧
    confirmEmissionCount envSignDeviceError.userConfirmation = 1 ∧
    (signUnsignedTx envSignDeviceError { transaction := [10, 11] }).result =
      Except.error (RadixError.plain "device rejected") ∧
    errorEventsOf (makeTransactionFromIntent envSignDeviceError).events =
      [(RadixError.plain "device rejected",
        TransactionTrackingEventType.FINALIZED)] :=
  ⟨rfl, rfl, rfl,
   (C4_error_phase_tags envSignDeviceError (by decide)).2.1
     { transaction := [10, 11] } (RadixError.plain "device rejected")
     rfl rfl rfl⟩

/-! ## Claim C3: multi-RRI rejection -/

/-- An intent transferring two distinct non-native resources, with
automatic confirmation and every node call set up to succeed. -/
def envMultiRri : PipelineEnv :=
  { envManualTwo with
    intent := { actions := [IntentAction.transferTokens "foo",
                            IntentAction.transferTokens "bar"] }
    userConfirmation := UserConfirmation.skip }

/-- C3 counterexample: the multi-RRI rejection is raised by the signing
step, which runs only after the build node call: in the failing run the
node was already called (the calls list is exactly the build call), so
the failure is not raised before any node call as the claim states. -/
theorem C3_counterexample :
    (makeTransactionFromIntent envMultiRri).calls = [ExtCall.buildTransaction] ∧
    (makeTransactionFromIntent envMultiRri).completion =
      Completion.failure (RadixError.plain multipleNonXrdErrMsg) := by
  constructor
  · decide
  · rfl

/-- C3 (amended): an intent with two or more distinct non-native resource
names fails signing with the multi-RRI error; the account signing
capability is never invoked, and no node call beyond the already
performed build is made (no finalize, submit or status call); the
completion fails with the same error. -/
theorem C3_multi_rri_rejection (env : PipelineEnv) (b : BuiltTransaction)
    (hrri : 2 ≤ (uniqueFirst (nonXRDHRPsOfRRIsInTx env.intent)).length) :
    (signUnsignedTx env b).result =
      Except.error (RadixError.plain multipleNonXrdErrMsg) ∧
    (signUnsignedTx env b).signCalled = false ∧
    (env.buildResult = Except.ok b →
      1 ≤ confirmEmissionCount env.userConfirmation →
      (makeTransactionFromIntent env).calls = [ExtCall.buildTransaction] ∧
      errorEventsOf (makeTransactionFromIntent env).events =
        [(RadixError.plain multipleNonXrdErrMsg,
          TransactionTrackingEventType.FINALIZED)] ∧
      (makeTransactionFromIntent env).completion =
        Completion.failure (RadixError.plain multipleNonXrdErrMsg)) := by
  have hsign : signUnsignedTx env b =
      { result := Except.error (RadixError.plain multipleNonXrdErrMsg)
        signCalled := false } := by
    unfold signUnsignedTx
    rw [if_pos (by omega)]
  refine ⟨by rw [hsign], by rw [hsign], ?_⟩
  intro hb hk1
  have hk0 : ¬ confirmEmissionCount env.userConfirmation = 0 := by omega
  have hrun : runFromConfirmed env b =
      { events := [TrackingEvent.stateError (RadixError.plain multipleNonXrdErrMsg)
          TransactionTrackingEventType.FINALIZED]
        completion := Completion.failure (RadixError.plain multipleNonXrdErrMsg)
        calls := [] } := by
    unfold runFromConfirmed
    rw [hsign]
    rfl
  refine ⟨?_, ?_, ?_⟩
  · simp [makeTransactionFromIntent, hb, hk0, hsign, hrun]
  · simp [makeTransactionFromIntent, hb, hk0, hsign, hrun, errorEventsOf]
  · simp [makeTransactionFromIntent, hb, hk0, hsign, hrun]

/-- C3 witness: the amended claim applied to the foo and bar intent. -/
theorem C3_multi_rri_rejection_witness :
    2 ≤ (uniqueFirst (nonXRDHRPsOfRRIsInTx envMultiRri.intent)).length ∧
    (signUnsignedTx envMultiRri { transaction := [10, 11] }).signCalled = false ∧
    (makeTransactionFromIntent envMultiRri).calls = [ExtCall.buildTransaction] :=
  ⟨by decide,
   (C3_multi_rri_rejection envMultiRri { transaction := [10, 11] } (by decide)).2.1,
   ((C3_multi_rri_rejection envMultiRri { transaction := [10, 11] }
      (by decide)).2.2 rfl (by decide)).1⟩

/-! ## Claim C5: status deduplication -/

/-- The UPDATE_OF_STATUS_OF_PENDING_TX events of the polling loop carry
exactly the polled statuses with consecutive equal status fields removed,
for any polled sequence whose terminal status (if any) comes last — which
is the only kind the loop can produce, because the first CONFIRMED or
FAILED status tears the loop down. -/
lemma pollLoop_updates (ss : List StatusOfTransaction) : ∀ last,
    (∀ s ∈ ss.dropLast, s.status = TransactionStatus.PENDING) →
    updatesOf (pollLoop last ss).events = collapseConsecutive last ss := by
  induction ss with
  | nil => intro last h; rfl
  | cons s rest ih =>
    intro last h
    have hrest : ∀ x ∈ rest.dropLast, x.status = TransactionStatus.PENDING := by
      intro x hx
      apply h
      cases rest with
      | nil => simp at hx
      | cons y ys =>
        rw [List.dropLast_cons₂]
        exact List.mem_cons_of_mem s hx
    by_cases hd : last = some s.status
    · rw [show collapseConsecutive last (s :: rest) = collapseConsecutive last rest by
        simp [collapseConsecutive, hd]]
      rw [show (pollLoop last (s :: rest)).events = (pollLoop last rest).events by
        simp [pollLoop, hd]]
      exact ih last hrest
    · cases hs : s.status with
      | PENDING =>
        rw [hs] at hd
        rw [show (pollLoop last (s :: rest)).events =
            TrackingEvent.stateUpdate (TransactionState.ofStatus s)
              TransactionTrackingEventType.UPDATE_OF_STATUS_OF_PENDING_TX ::
            (pollLoop (some TransactionStatus.PENDING) rest).events by
          simp [pollLoop, hd, hs]]
        rw [show collapseConsecutive last (s :: rest) =
            s :: collapseConsecutive (some TransactionStatus.PENDING) rest by
          simp [collapseConsecutive, hs]
          intro hc
          exact absurd hc hd]
        simp only [updatesOf, List.filterMap_cons]
        rw [← updatesOf, ih (some TransactionStatus.PENDING) hrest]
      | CONFIRMED =>
        have hrest0 : rest = [] := by
          cases hr : rest with
          | nil => rfl
          | cons y ys =>
            have hmem : s ∈ (s :: rest).dropLast := by
              rw [hr, List.dropLast_cons₂]
              exact List.mem_cons_self s _
            have := h s hmem
            rw [hs] at this
            cases this
        subst hrest0
        rw [hs] at hd
        rw [show (pollLoop last [s]).events =
            [TrackingEvent.stateUpdate (TransactionState.ofStatus s)
              TransactionTrackingEventType.UPDATE_OF_STATUS_OF_PENDING_TX,
             TrackingEvent.stateUpdate (TransactionState.ofStatus s)
              TransactionTrackingEventType.COMPLETED] by
          simp [pollLoop, hd, hs]]
        rw [show collapseConsecutive last [s] = [s] by
          simp [collapseConsecutive, hs]
          intro hc
          exact absurd hc hd]
        simp [updatesOf]
      | FAILED =>
        have hrest0 : rest = [] := by
          cases hr : rest with
          | nil => rfl
          | cons y ys =>
            have hmem : s ∈ (s :: rest).dropLast := by
              rw [hr, List.dropLast_cons₂]
              exact List.mem_cons_self s _
            have := h s hmem
            rw [hs] at this
            cases this
        subst hrest0
        rw [hs] at hd
        rw [show (pollLoop last [s]).events =
            [TrackingEvent.stateUpdate (TransactionState.ofStatus s)
              TransactionTrackingEventType.UPDATE_OF_STATUS_OF_PENDING_TX,
             TrackingEvent.stateError
              (RadixError.plain (failedStatusErrMsg s.txID))
              TransactionTrackingEventType.UPDATE_OF_STATUS_OF_PENDING_TX] by
          simp [pollLoop, hd, hs]]
        rw [show collapseConsecutive last [s] = [s] by
          simp [collapseConsecutive, hs]
          intro hc
          exact absurd hc hd]
        simp [updatesOf]

/-- C5: the statuses carried by UPDATE_OF_STATUS_OF_PENDING_TX events are
the polled statuses with consecutive equal status fields removed, both
for the polling subsystem in isolation and for a pipeline run that
reaches the polling stage. -/
theorem C5_status_dedup :
    (∀ (ss : List StatusOfTransaction) last,
      (∀ s ∈ ss.dropLast, s.status = TransactionStatus.PENDING) →
      updatesOf (pollLoop last ss).events = collapseConsecutive last ss) ∧
    (∀ env b st f p, env.buildResult = Except.ok b →
      confirmEmissionCount env.userConfirmation = 1 →
      (signUnsignedTx env b).result = Except.ok st →
      env.finalizeResult = Except.ok f →
      env.submitResult = Except.ok p →
      (∀ s ∈ env.statuses.dropLast, s.status = TransactionStatus.PENDING) →
      updatesOf (makeTransactionFromIntent env).events =
        collapseConsecutive none env.statuses) := by
  refine ⟨fun ss last h => pollLoop_updates ss last h, ?_⟩
  intro env b st f p hb hk1 hsr hf hsub hstat
  have hk : confirmEmissionCount env.userConfirmation ≤ 1 := by omega
  rcases makeTransactionFromIntent_cases env hk with
    ⟨m2, hb2, hev, hc, hca⟩ | ⟨b2, hb2, hk0, hev, hc, hca⟩ | ⟨b2, hb2, hk1b, hev, hc, hca⟩
  · rw [hb] at hb2; cases hb2
  · rw [hk1] at hk0; cases hk0
  · rw [hb] at hb2
    cases hb2
    rcases runFromConfirmed_cases env b with
      ⟨e2, hsr2, hev2, hc2, hca2⟩ | ⟨st2, m2, hsr2, hf2, hev2, hc2, hca2⟩ |
      ⟨st2, f2, m2, hsr2, hf2, hsub2, hev2, hc2, hca2⟩ |
      ⟨st2, f2, p2, hsr2, hf2, hsub2, hev2, hc2, hca2⟩
    · rw [hsr] at hsr2; cases hsr2
    · rw [hf] at hf2; cases hf2
    · rw [hsub] at hsub2; cases hsub2
    · rw [hev, hev2]
      simp only [updatesOf, List.filterMap_append, List.filterMap_cons,
        List.filterMap_nil]
      rw [← updatesOf, pollLoop_updates env.statuses none hstat]
      rfl

/-- An environment polling PENDING, PENDING, CONFIRMED. -/
def envPendingPendingConfirmed : PipelineEnv :=
  { envManualTwo with
    statuses := [{ txID := 42, status := TransactionStatus.PENDING },
                 { txID := 42, status := TransactionStatus.PENDING },
                 { txID := 42, status := TransactionStatus.CONFIRMED }]
    userConfirmation := UserConfirmation.skip }

/-- C5 witness: the spec example PENDING, PENDING, CONFIRMED yields the
two updates PENDING then CONFIRMED. -/
theorem C5_status_dedup_witness :
    updatesOf (makeTransactionFromIntent envPendingPendingConfirmed).events =
      collapseConsecutive none envPendingPendingConfirmed.statuses ∧
    collapseConsecutive none envPendingPendingConfirmed.statuses =
      [{ txID := 42, status := TransactionStatus.PENDING },
       { txID := 42, status := TransactionStatus.CONFIRMED }] :=
  ⟨C5_status_dedup.2 envPendingPendingConfirmed { transaction := [10, 11] }
    { transaction := [10, 11], signature := 77, publicKeyOfSigner := 9 }
    { txID := 42 } { txID := 42 } rfl rfl rfl rfl rfl (by decide),
   by decide⟩

/-! ## Claim C6: idempotency of the confirmation callback -/

/-- The CONFIRMED tracking event of the built transaction used by the
concrete environments. -/
def evConfirmedBuilt : TrackingEvent :=
  TrackingEvent.stateUpdate (TransactionState.ofBuilt { transaction := [10, 11] })
    TransactionTrackingEventType.CONFIRMED

/-- C6: the code evaluated on the same environment with one versus two
`confirm()` calls: the second call re-emits the CONFIRMED tracking event
and re-invokes the account signing capability, so `confirm()` is not
idempotent — `userDidConfirmTransactionSubject` feeds a `combineLatest`
that re-fires on every call with nothing deduplicating it. -/
theorem C6_confirm_not_idempotent :
    ((makeTransactionFromIntent envManualTwo).events.count evConfirmedBuilt = 2 ∧
     (makeTransactionFromIntent envManualTwo).calls.count ExtCall.accountSign = 2) ∧
    ((makeTransactionFromIntent envManualOne).events.count evConfirmedBuilt = 1 ∧
     (makeTransactionFromIntent envManualOne).calls.count ExtCall.accountSign = 1) ∧
    (makeTransactionFromIntent envManualTwo).events ≠
      (makeTransactionFromIntent envManualOne).events := by
  decide

end Radix
